import Mathlib

/-!
Verification of the Swarm Control Server (swarm/contorl_server) against its
natural-language specification.  The C++ sources are shallowly embedded:
JSON documents become an inductive `Json` value (numbers are modelled as
integers: every number the verified claims touch is produced or consumed as an
integral value), stateful components become explicit state records with pure
step functions, C++ exceptions become `Except String`, and outbound traffic
(WebSocket sends to UI sessions and to relays) is collected into explicit send
lists in emission order.
-/

namespace ToioControl

/-- JSON documents as handled by nlohmann::json in the server.  Object fields
keep insertion order; duplicate keys do not arise in the embedded code. -/
inductive Json where
  | null : Json
  | b : Bool → Json
  | num : Int → Json
  | str : String → Json
  | arr : List Json → Json
  | obj : List (String × Json) → Json
deriving Repr

namespace Json

/-- Field lookup on an object (first match); `none` on non-objects. -/
def find : Json → String → Option Json
  | .obj fields, key => findField fields key
  | _, _ => none
where findField : List (String × Json) → String → Option Json
  | [], _ => none
  | (k, v) :: rest, key => if k = key then some v else findField rest key

/-- nlohmann `contains`: false on non-objects. -/
def hasKey (j : Json) (key : String) : Bool := (j.find key).isSome

def isArr : Json → Bool
  | .arr _ => true
  | _ => false

def isObj : Json → Bool
  | .obj _ => true
  | _ => false

def isStr : Json → Bool
  | .str _ => true
  | _ => false

/-- The element list of an array; `[]` on non-arrays. -/
def items : Json → List Json
  | .arr xs => xs
  | _ => []

/-- nlohmann `value(key, default)` at type `json`: returns the stored value of
any type when the key is present, the default when absent, and throws
type_error.306 when called on a non-object. -/
def valueJson (j : Json) (key : String) (dflt : Json) : Except String Json :=
  match j with
  | .obj _ =>
    match j.find key with
    | some v => .ok v
    | none => .ok dflt
  | _ => .error "type_error.306"

/-- nlohmann `value(key, default)` at `std::string`: get<string> throws
type_error.302 on a non-string value. -/
def valueStr (j : Json) (key : String) (dflt : String) : Except String String :=
  match j with
  | .obj _ =>
    match j.find key with
    | some (.str s) => .ok s
    | some _ => .error "type_error.302"
    | none => .ok dflt
  | _ => .error "type_error.306"

/-- nlohmann `value(key, default)` at `bool`: get<bool> accepts only JSON
booleans. -/
def valueBool (j : Json) (key : String) (dflt : Bool) : Except String Bool :=
  match j with
  | .obj _ =>
    match j.find key with
    | some (.b v) => .ok v
    | some _ => .error "type_error.302"
    | none => .ok dflt
  | _ => .error "type_error.306"

/-- nlohmann `value(key, default)` at an arithmetic type: numbers convert, and
so do booleans (the generic arithmetic from_json accepts them); everything
else throws type_error.302. -/
def valueInt (j : Json) (key : String) (dflt : Int) : Except String Int :=
  match j with
  | .obj _ =>
    match j.find key with
    | some (.num n) => .ok n
    | some (.b v) => .ok (if v then 1 else 0)
    | some _ => .error "type_error.302"
    | none => .ok dflt
  | _ => .error "type_error.306"

/-- nlohmann `at(key).get<arithmetic>`: throws out_of_range.403 when the key
is missing, type_error.302 on a non-numeric value. -/
def atInt (j : Json) (key : String) : Except String Int :=
  match j.find key with
  | some (.num n) => .ok n
  | some (.b v) => .ok (if v then 1 else 0)
  | some _ => .error "type_error.302"
  | none => .error "out_of_range.403"

end Json

/-- The string entries of a JSON element list, in order; non-string entries
are skipped.  This is the `if (item.is_string()) push_back` loop the gateway
runs over `targets`, `streams`, `cube_filter` and `members` arrays. -/
def stringEntries : List Json → List String
  | [] => []
  | .str s :: rest => s :: stringEntries rest
  | _ :: rest => stringEntries rest

/-- Association-list lookup (std::unordered_map find). -/
def alookup {α β : Type} [DecidableEq α] (k : α) : List (α × β) → Option β
  | [] => none
  | (k', v) :: rest => if k' = k then some v else alookup k rest

/-- Association-list insert-or-assign (std::unordered_map operator[] =). -/
def aput {α β : Type} [DecidableEq α] (k : α) (v : β) : List (α × β) → List (α × β)
  | [] => [(k, v)]
  | (k', v') :: rest => if k' = k then (k, v) :: rest else (k', v') :: aput k v rest

/-- Association-list erase (std::unordered_map erase). -/
def adel {α β : Type} [DecidableEq α] (k : α) : List (α × β) → List (α × β)
  | [] => []
  | (k', v') :: rest => if k' = k then rest else (k', v') :: adel k rest

/-- std::unordered_set insert: no-op when already present. -/
def setInsert (x : String) (xs : List String) : List String :=
  if x ∈ xs then xs else xs ++ [x]

/-- Insert every string entry of `src` into the set `acc` (the gateway's
insert loops over `streams` and `cube_filter` arrays). -/
def setInsertAll (acc : List String) : List Json → List String
  | [] => acc
  | .str s :: rest => setInsertAll (setInsert s acc) rest
  | _ :: rest => setInsertAll acc rest

theorem mem_setInsert {x y : String} {xs : List String} :
    y ∈ setInsert x xs ↔ y ∈ xs ∨ y = x := by
  unfold setInsert
  by_cases h : x ∈ xs
  · simp only [h, if_true]
    constructor
    · exact fun hy => Or.inl hy
    · rintro (hy | rfl)
      · exact hy
      · exact h
  · simp only [h, if_false, List.mem_append, List.mem_singleton]

theorem mem_setInsertAll {y : String} {acc : List String} {src : List Json} :
    y ∈ setInsertAll acc src ↔ y ∈ acc ∨ y ∈ stringEntries src := by
  induction src generalizing acc with
  | nil => simp [setInsertAll, stringEntries]
  | cons j rest ih =>
    cases j with
    | str s =>
      rw [show setInsertAll acc (.str s :: rest) = setInsertAll (setInsert s acc) rest from rfl]
      rw [ih]
      simp only [stringEntries, List.mem_cons, mem_setInsert]
      tauto
    | null => simp [setInsertAll, stringEntries, ih]
    | b v => simp [setInsertAll, stringEntries, ih]
    | num n => simp [setInsertAll, stringEntries, ih]
    | arr xs => simp [setInsertAll, stringEntries, ih]
    | obj fs => simp [setInsertAll, stringEntries, ih]

theorem setInsertAll_nil_eq_nil_iff {src : List Json} :
    setInsertAll [] src = [] ↔ stringEntries src = [] := by
  constructor
  · intro h
    by_contra hne
    match hs : stringEntries src with
    | [] => exact hne hs
    | s :: rest =>
      have : s ∈ setInsertAll [] src := by
        rw [mem_setInsertAll]
        exact Or.inr (hs ▸ List.mem_cons_self s rest)
      rw [h] at this
      exact absurd this (List.not_mem_nil s)
  · intro h
    by_contra hne
    match hs : setInsertAll [] src with
    | [] => exact hne hs
    | s :: rest =>
      have : s ∈ setInsertAll [] src := hs ▸ List.mem_cons_self s rest
      rw [mem_setInsertAll] at this
      rcases this with h1 | h2
      · exact absurd h1 (List.not_mem_nil s)
      · rw [h] at h2
        exact absurd h2 (List.not_mem_nil s)

/-! ## CubeRegistry

The repository ships `cube_registry.hpp` / `cube_registry.cpp` only as an
include in other headers; the implementation is not under the provided
sources, so the registry is modelled from the specification (§3, §4.1). -/

/-- LED state `{r, g, b}` of a cube (CubeRegistry::LedState). -/
structure LedState where
  r : Int := 0
  g : Int := 0
  b : Int := 0
deriving DecidableEq, Repr

/-- Pose `{x, y, deg, on_mat}` of a cube (CubeRegistry::Pose); coordinates
are discretized upstream, hence modelled as integers. -/
structure Pose where
  x : Int := 0
  y : Int := 0
  deg : Int := 0
  on_mat : Bool := false
deriving DecidableEq, Repr

/-- Modelled from the spec: canonical per-cube state stored by the registry
(spec §3 "Cube state", field list corroborated by
CommandGateway::cube_state_to_json). -/
structure CubeState where
  cube_id : String := ""
  relay_id : String := ""
  battery : Int := 0
  state : String := ""
  goal_id : String := ""
  has_position : Bool := false
  position : Pose := {}
  led : LedState := {}
  last_updated : Int := 0
deriving DecidableEq, Repr

/-- Modelled from the spec: a partial cube patch (spec §3 "Cube update");
missing fields never clear existing values.  The field set is corroborated by
the patch construction sites in relay_manager.cpp and command_gateway.cpp. -/
structure CubeUpdate where
  cube_id : String := ""
  relay_id : Option String := none
  timestamp : Int := 0
  position : Option Pose := none
  battery : Option Int := none
  led : Option LedState := none
  goal_id : Option String := none
deriving DecidableEq, Repr

/-- The registry map `cube_id → CubeState`, with a change history deque. -/
structure Registry where
  cubes : List (String × CubeState) := []
  changes : List (Int × CubeState) := []
deriving Repr

/-- Modelled from the spec: merge the non-null fields of a patch into a prior
state; `last_updated` is taken from the patch regardless (spec §4.1). -/
def mergeUpdate (prior : CubeState) (u : CubeUpdate) : CubeState :=
  { prior with
    relay_id := u.relay_id.getD prior.relay_id
    battery := u.battery.getD prior.battery
    led := u.led.getD prior.led
    goal_id := u.goal_id.getD prior.goal_id
    position := u.position.getD prior.position
    has_position := prior.has_position || u.position.isSome
    last_updated := u.timestamp }

/-- Modelled from the spec: change detection compares each observable field
of the prior and merged state (everything except `last_updated`). -/
def cubeChanged (prior merged : CubeState) : Bool :=
  decide (prior.relay_id ≠ merged.relay_id) ||
  decide (prior.battery ≠ merged.battery) ||
  decide (prior.led ≠ merged.led) ||
  decide (prior.goal_id ≠ merged.goal_id) ||
  decide (prior.has_position ≠ merged.has_position) ||
  decide (prior.position ≠ merged.position) ||
  decide (prior.state ≠ merged.state)

/-- Bound on the registry change history (spec §4.1: deque of up to 256). -/
def registryHistoryMax : Nat := 256

/-- Modelled from the spec: `apply_update` — entries are created lazily on
first update, non-null fields merge in, and the new state is returned iff an
observable field changed; a change appends a `{timestamp, state}` record to
the bounded history. -/
def applyUpdate (reg : Registry) (u : CubeUpdate) : Registry × Option CubeState :=
  let prior := (alookup u.cube_id reg.cubes).getD { cube_id := u.cube_id }
  let merged := mergeUpdate prior u
  let cubes' := aput u.cube_id merged reg.cubes
  if cubeChanged prior merged then
    let withNew := reg.changes ++ [(u.timestamp, merged)]
    let changes' := if withNew.length > registryHistoryMax then withNew.drop 1 else withNew
    ({ cubes := cubes', changes := changes' }, some merged)
  else
    ({ cubes := cubes', changes := reg.changes }, none)

/-- Modelled from the spec: `apply_updates` — batched, preserving the input
order of changed results. -/
def applyUpdates (reg : Registry) : List CubeUpdate → Registry × List CubeState
  | [] => (reg, [])
  | u :: rest =>
    let (reg1, changed) := applyUpdate reg u
    let (reg2, restChanged) := applyUpdates reg1 rest
    (reg2, (match changed with | some st => [st] | none => []) ++ restChanged)

/-- Modelled from the spec: `snapshot()` — a full copy of the stored states. -/
def registrySnapshot (reg : Registry) : List CubeState :=
  reg.cubes.map Prod.snd

/-- Modelled from the spec: `history(n)` — the last `n` change records. -/
def registryHistory (reg : Registry) (n : Nat) : List (Int × CubeState) :=
  reg.changes.drop (reg.changes.length - n)

/-! ## FleetOrchestrator (fleet_orchestrator.cpp) -/

/-- FleetOrchestrator::GoalPose. -/
structure GoalPose where
  x : Int := 0
  y : Int := 0
  angle : Option Int := none
deriving DecidableEq, Repr

/-- FleetOrchestrator::GoalRequest. -/
structure GoalRequest where
  targets : List String := []
  pose : GoalPose := {}
  priority : Int := 0
  keep_history : Bool := false
deriving DecidableEq, Repr

/-- FleetOrchestrator::GoalAssignment. -/
structure GoalAssignment where
  goal_id : String := ""
  cube_id : String := ""
  pose : GoalPose := {}
  priority : Int := 0
  created_at : Int := 0
deriving DecidableEq, Repr

/-- The orchestrator's mutable state: active goals keyed by cube, the bounded
history deque, and the monotonic goal counter (initially 0). -/
structure OrchestratorState where
  active_goals : List (String × GoalAssignment) := []
  history : List GoalAssignment := []
  goal_counter : Nat := 0
deriving Repr

/-- `max_history_` from fleet_orchestrator.hpp. -/
def maxHistory : Nat := 64

/-- FleetOrchestrator::assign_goal.  Throwing `std::invalid_argument` is
modelled as returning the unchanged state together with `.error`; on success
the counter is bumped first, the assignment for `targets.front()` replaces
any prior one, and the history is appended (and trimmed once) only when
`keep_history` is set. -/
def assignGoal (st : OrchestratorState) (req : GoalRequest) (now : Int) :
    OrchestratorState × Except String String :=
  match req.targets with
  | [] => (st, .error "GoalRequest.targets must not be empty")
  | t :: _ =>
    let counter := st.goal_counter + 1
    let goal_id := "goal-" ++ toString counter
    let assignment : GoalAssignment :=
      { goal_id := goal_id, cube_id := t, pose := req.pose, priority := req.priority,
        created_at := now }
    let history' :=
      if req.keep_history then
        let pushed := st.history ++ [assignment]
        if pushed.length > maxHistory then pushed.drop 1 else pushed
      else st.history
    ({ active_goals := aput t assignment st.active_goals, history := history',
       goal_counter := counter }, .ok goal_id)

/-- FleetOrchestrator::clear_goal. -/
def clearGoal (st : OrchestratorState) (cube_id : String) : OrchestratorState :=
  { st with active_goals := adel cube_id st.active_goals }

/-- FleetOrchestrator::FleetState. -/
structure FleetState where
  tick_hz : Int := 30
  tasks_in_queue : Nat := 0
  warnings : List String := []
  active_goals : List GoalAssignment := []
deriving Repr

/-- FleetOrchestrator::snapshot: the active goal values plus one warning per
registry cube without a known position. -/
def orchSnapshot (st : OrchestratorState) (reg : Registry) : FleetState :=
  { tick_hz := 30
    tasks_in_queue := st.active_goals.length
    active_goals := st.active_goals.map Prod.snd
    warnings :=
      (registrySnapshot reg).filterMap fun cube =>
        if cube.has_position then none
        else some ("Cube " ++ cube.cube_id ++ " position unknown") }

/-! ## RelayConnection (relay_connection.cpp)

The asynchronous handlers run on a single strand; each handler is embedded as
a pure function from the connection state to the next state plus the list of
externally visible actions it performs, in order. -/

inductive RelayConnectionState where
  | Stopped
  | Connecting
  | Connected
deriving DecidableEq, Repr

/-- The per-connection state touched by the handlers relevant to the
reconnect behaviour. -/
structure ConnState where
  state : RelayConnectionState := .Stopped
  stopping : Bool := false
  timerArmed : Bool := false
  socketOpen : Bool := false
deriving DecidableEq, Repr

/-- Externally visible effects of a RelayConnection handler. -/
inductive ConnAction where
  | closeSocket
  | status (st : RelayConnectionState) (msg : String)
  | armTimer
  | startRead
  | startResolve
deriving DecidableEq, Repr

/-- RelayConnection::fail: close the raw socket, drop to Stopped, emit a
"<where> error" status, and schedule the reconnect timer unless stopping. -/
def connFail (c : ConnState) (whereS : String) : ConnState × List ConnAction :=
  let c1 : ConnState := { c with socketOpen := false, state := .Stopped }
  if c.stopping then
    (c1, [.closeSocket, .status .Stopped (whereS ++ " error")])
  else
    ({ c1 with timerArmed := true },
     [.closeSocket, .status .Stopped (whereS ++ " error"), .armTimer])

/-- RelayConnection::do_connect: enter Connecting and start the resolve. -/
def connDoConnect (c : ConnState) : ConnState × List ConnAction :=
  ({ c with state := .Connecting }, [.status .Connecting "resolving", .startResolve])

/-- RelayConnection::handle_handshake. -/
def connHandleHandshake (c : ConnState) (ok : Bool) : ConnState × List ConnAction :=
  if ok then
    ({ c with state := .Connected, socketOpen := true },
     [.status .Connected "connected", .startRead])
  else connFail c "handshake"

/-- The error outcome a read can complete with: a clean websocket close by
the remote peer, or any other error code. -/
inductive ReadOutcome where
  | remoteClosed
  | otherError
deriving DecidableEq, Repr

/-- RelayConnection::on_read error paths: `websocket::error::closed` only
emits a "closed by remote" status; every other error goes through `fail`. -/
def connOnReadError (c : ConnState) : ReadOutcome → ConnState × List ConnAction
  | .remoteClosed => (c, [.status .Stopped "closed by remote"])
  | .otherError => connFail c "read"

/-- RelayConnection write completion with an error goes through `fail`. -/
def connOnWriteError (c : ConnState) : ConnState × List ConnAction :=
  connFail c "write"

/-- RelayConnection::schedule_reconnect's timer callback: retry the connect
unless the wait was cancelled or the connection is stopping. -/
def connOnTimer (c : ConnState) (cancelled : Bool) : ConnState × List ConnAction :=
  let c1 := { c with timerArmed := false }
  if cancelled || c.stopping then (c1, []) else connDoConnect c1

/-! ## RelayManager (relay_manager.cpp) -/

/-- RelayManager's per-relay handle: the relay's static config (id and cube
list) — the connection itself is represented by the send lists the embedding
returns. -/
structure RelayHandle where
  id : String := ""
  cubes : List String := []
deriving DecidableEq, Repr

/-- RelayStatusEvent. -/
structure RelayStatusEvent where
  relay_id : String := ""
  status : String := ""
  message : String := ""
deriving DecidableEq, Repr

/-- The RelayManager state: the owned relays, the static cube→relay routing
table, and the last known connection state per relay (operator[] defaults a
missing entry to the first enum value, Stopped). -/
structure RelayManagerState where
  relays : List RelayHandle := []
  cube_to_relay : List (String × String) := []
  relay_states : List (String × RelayConnectionState) := []
deriving Repr

/-- `to_status_string` in relay_manager.cpp. -/
def toStatusString : RelayConnectionState → String
  | .Stopped => "stopped"
  | .Connecting => "connecting"
  | .Connected => "connected"

/-- The relay-bound `move` command envelope built by send_manual_drive. -/
def driveEnvelope (target : String) (left right : Int) : Json :=
  .obj [("type", .str "command"),
        ("payload", .obj
          [("cmd", .str "move"),
           ("target", .str target),
           ("params", .obj [("left_speed", .num left), ("right_speed", .num right)]),
           ("require_result", .b false)])]

/-- The relay-bound `led` command envelope built by send_led_command. -/
def ledEnvelope (target : String) (r g b : Int) : Json :=
  .obj [("type", .str "command"),
        ("payload", .obj
          [("cmd", .str "led"),
           ("target", .str target),
           ("params", .obj [("r", .num r), ("g", .num g), ("b", .num b)]),
           ("require_result", .b false)])]

/-- The routing checks of RelayManager::send_to_cube in source order:
ensure_target_available, relay registration, relay Connected.  On success the
owning relay id is returned; the payload is then handed to that relay's
connection unchanged. -/
def routeToCube (rm : RelayManagerState) (cube_id : String) : Except String String :=
  match alookup cube_id rm.cube_to_relay with
  | none => .error ("cube " ++ cube_id ++ " is not registered")
  | some relay_id =>
    if (rm.relays.find? (fun h => h.id = relay_id)).isSome then
      if (alookup relay_id rm.relay_states).getD .Stopped = .Connected then
        .ok relay_id
      else .error ("relay " ++ relay_id ++ " not connected")
    else .error ("relay " ++ relay_id ++ " not registered")

/-- RelayManager::send_to_cube: route, then send the payload. -/
def sendToCube (rm : RelayManagerState) (cube_id : String) (payload : Json) :
    Except String Json :=
  match routeToCube rm cube_id with
  | .ok _ => .ok payload
  | .error e => .error e

/-- The per-target loop shared by send_manual_drive and send_led_command:
send one envelope per target, aborting the batch at the first failure; the
envelopes already sent are not withdrawn.  Returns (success, error message,
envelopes that went out, in order). -/
def sendBatch (rm : RelayManagerState) (envFor : String → Json) :
    List String → Bool × Option String × List Json
  | [] => (true, none, [])
  | t :: rest =>
    match sendToCube rm t (envFor t) with
    | .error msg => (false, some msg, [])
    | .ok e =>
      let (ok, err, sent) := sendBatch rm envFor rest
      (ok, err, e :: sent)

/-- RelayManager::send_manual_drive. -/
def sendManualDrive (rm : RelayManagerState) (targets : List String) (left right : Int) :
    Bool × Option String × List Json :=
  match targets with
  | [] => (false, some "manual_drive requires at least one target", [])
  | _ => sendBatch rm (fun t => driveEnvelope t left right) targets

/-- RelayManager::send_led_command. -/
def sendLedCommand (rm : RelayManagerState) (targets : List String) (r g b : Int) :
    Bool × Option String × List Json :=
  match targets with
  | [] => (false, some "set_led requires at least one target", [])
  | _ => sendBatch rm (fun t => ledEnvelope t r g b) targets

/-- The `connect` command sent during bootstrap. -/
def connectEnvelope (cube : String) : Json :=
  .obj [("type", .str "command"),
        ("payload", .obj
          [("cmd", .str "connect"),
           ("target", .str cube),
           ("require_result", .b false)])]

/-- The position-notify query sent during bootstrap. -/
def positionQueryEnvelope (cube : String) : Json :=
  .obj [("type", .str "query"),
        ("payload", .obj
          [("info", .str "position"),
           ("target", .str cube),
           ("notify", .b true)])]

/-- The one-shot battery query sent during bootstrap. -/
def batteryQueryEnvelope (cube : String) : Json :=
  .obj [("type", .str "query"),
        ("payload", .obj
          [("info", .str "battery"),
           ("target", .str cube)])]

/-- RelayManager::bootstrap_relay: for each configured cube, in order, send
connect, then the position subscription, then the battery query. -/
def bootstrapRelay (handle : RelayHandle) : List Json :=
  handle.cubes.flatMap fun cube =>
    [connectEnvelope cube, positionQueryEnvelope cube, batteryQueryEnvelope cube]

/-- The envelopes RelayManager::handle_status sends to the relay: the
bootstrap sequence exactly when the reported state is Connected and the
relay is registered. -/
def statusSends (rm : RelayManagerState) (relay_id : String)
    (state : RelayConnectionState) : List Json :=
  if state = .Connected then
    match rm.relays.find? (fun h => h.id = relay_id) with
    | some handle => bootstrapRelay handle
    | none => []
  else []

/-- RelayManager::handle_status: record the state, build the status event for
the callback, and bootstrap the relay when it just reported Connected.
Returns (new state, status event, envelopes sent to that relay). -/
def handleStatus (rm : RelayManagerState) (relay_id : String)
    (state : RelayConnectionState) (message : String) :
    RelayManagerState × RelayStatusEvent × List Json :=
  let rm' := { rm with relay_states := aput relay_id state rm.relay_states }
  let event : RelayStatusEvent :=
    { relay_id := relay_id, status := toStatusString state, message := message }
  (rm', event, statusSends rm' relay_id state)

/-! ## ConfigLoader (util/config_loader.cpp)

File I/O and JSON text parsing happen in nlohmann before validation; the
embedding takes the parsed document as input.  Configuration errors raised
via `throw_config_error` carry a "Config error: " prefix; exceptions thrown
by nlohmann accessors keep their type_error / out_of_range tags. -/

structure UiConfig where
  host : String := "0.0.0.0"
  port : Nat := 0
deriving DecidableEq, Repr

structure RelayConfig where
  id : String := ""
  uri : String := ""
  cubes : List String := []
deriving DecidableEq, Repr

structure FieldPoint where
  x : Int := 0
  y : Int := 0
deriving DecidableEq, Repr

structure FieldConfig where
  top_left : FieldPoint := { x := 45, y := 45 }
  bottom_right : FieldPoint := { x := 455, y := 455 }
deriving DecidableEq, Repr

structure ControlServerConfig where
  ui : UiConfig := {}
  relays : List RelayConfig := []
  field : FieldConfig := {}
  relay_reconnect_ms : Int := 2000
deriving DecidableEq, Repr

/-- `throw_config_error` (the file path prefix is elided). -/
def cfgErr {α : Type} (msg : String) : Except String α :=
  .error ("Config error: " ++ msg)

/-- A `cubes` entry: `cube.get<std::string>()` throws on non-strings. -/
def parseCubeEntry (j : Json) : Except String String :=
  match j with
  | .str s => .ok s
  | _ => .error "type_error.302"

/-- The inner cube loop of the relay loop: length check, then global
duplicate check against the `cube_ids` set accumulated across relays. -/
def loadCubes (cubeSeen : List String) : List Json → Except String (List String × List String)
  | [] => .ok ([], cubeSeen)
  | j :: rest =>
    (parseCubeEntry j).bind fun cube_id =>
    if cube_id.length ≠ 3 then
      cfgErr ("cube id " ++ cube_id ++ " must be 3 characters")
    else if cube_id ∈ cubeSeen then
      cfgErr ("cube id " ++ cube_id ++ " assigned to multiple relays")
    else (loadCubes (setInsert cube_id cubeSeen) rest).bind fun cres =>
      .ok (cube_id :: cres.1, cres.2)

/-- The relay loop of load_config: id and uri presence, a non-empty `cubes`
array (a missing `cubes` key throws out_of_range from `at()`), per-cube
validation, and the duplicate-relay-id check. -/
def loadRelayList (relaySeen cubeSeen : List String) :
    List Json → Except String (List RelayConfig × List String × List String)
  | [] => .ok ([], relaySeen, cubeSeen)
  | rj :: rest =>
    (rj.valueStr "id" "").bind fun id =>
    if id = "" then cfgErr "relay entry missing id"
    else (rj.valueStr "uri" "").bind fun uri =>
    if uri = "" then cfgErr ("relay " ++ id ++ " missing uri")
    else
      match rj.find "cubes" with
      | none => Except.error "out_of_range.403"
      | some (.arr cubeItems) =>
        if cubeItems.isEmpty then
          cfgErr ("relay " ++ id ++ " must define at least one cube")
        else (loadCubes cubeSeen cubeItems).bind fun cres =>
          if id ∈ relaySeen then cfgErr ("duplicate relay id " ++ id)
          else (loadRelayList (setInsert id relaySeen) cres.2 rest).bind fun rres =>
            .ok ({ id := id, uri := uri, cubes := cres.1 } :: rres.1, rres.2.1, rres.2.2)
      | some _ => cfgErr ("relay " ++ id ++ " must define at least one cube")

/-- `parse_point` inside load_config. -/
def parsePoint (fieldJson : Json) (key : String) : Except String FieldPoint := do
  let pointJson ←
    match fieldJson.find key with
    | some p => Except.ok p
    | none => Except.error "out_of_range.403"
  match pointJson with
  | .obj _ =>
    if ¬(pointJson.hasKey "x" ∧ pointJson.hasKey "y") then
      cfgErr ("field." ++ key ++ " must contain x and y")
    else do
      let x ← pointJson.atInt "x"
      let y ← pointJson.atInt "y"
      .ok { x := x, y := y }
  | _ => cfgErr ("field." ++ key ++ " must be an object")

/-- The optional `field` block of load_config: present keys replace the
defaults, and both points must parse when their keys are present. -/
def loadField (doc : Json) : Except String FieldConfig :=
  if doc.hasKey "field" then
    match doc.find "field" with
    | some (.obj fs) =>
      (if (Json.obj fs).hasKey "top_left" then parsePoint (.obj fs) "top_left"
       else Except.ok { x := 45, y := 45 }).bind fun tl =>
      (if (Json.obj fs).hasKey "bottom_right" then parsePoint (.obj fs) "bottom_right"
       else Except.ok { x := 455, y := 455 }).bind fun br =>
      Except.ok { top_left := tl, bottom_right := br }
    | _ => cfgErr "field must be an object with top_left/bottom_right"
  else Except.ok {}

/-- The optional `relay_reconnect_ms` of load_config; `get<std::uint32_t>()`
converts modularly. -/
def reconnectMs (doc : Json) : Except String Int :=
  if doc.hasKey "relay_reconnect_ms" then
    (doc.atInt "relay_reconnect_ms").map (fun n => n % 4294967296)
  else Except.ok 2000

/-- load_config, after the file has been read and parsed into `doc`.
`ui.port` goes through `get<std::uint16_t>()`, whose integer conversion is
modular. -/
def loadConfig (doc : Json) : Except String ControlServerConfig :=
  match doc.find "ui" with
  | none => cfgErr "missing ui settings"
  | some ui =>
    (ui.valueStr "host" "0.0.0.0").bind fun host =>
    if ¬ui.hasKey "port" then cfgErr "ui.port is required"
    else (ui.atInt "port").bind fun portRaw =>
    if (portRaw % 65536).toNat = 0 then cfgErr "ui.port must be > 0"
    else if ¬doc.hasKey "relays" then cfgErr "missing relays list"
    else
      match doc.find "relays" with
      | some (.arr relayItems) =>
        if relayItems.isEmpty then cfgErr "relays must be a non-empty array"
        else (loadRelayList [] [] relayItems).bind fun rres =>
          (loadField doc).bind fun field =>
          if field.bottom_right.x ≤ field.top_left.x ∨
             field.bottom_right.y ≤ field.top_left.y then
            cfgErr "field.bottom_right must be greater than top_left"
          else (reconnectMs doc).bind fun rms =>
            .ok { ui := { host := host, port := (portRaw % 65536).toNat },
                  relays := rres.1, field := field, relay_reconnect_ms := rms }
      | _ => cfgErr "relays must be a non-empty array"

/-! ## WsServer sends and CommandGateway (command_gateway.cpp)

Each gateway handler runs on the acceptor strand; it is embedded as a pure
function from the gateway state to the next state plus the ordered list of
messages it hands to `WsServer::send` (per-session outbound enqueue order)
and to relay connections.  A C++ exception escaping a handler is an
`Except.error`; WsServer::handle_session_message catches it, so the caller
observes the unchanged state and no sends. -/

abbrev SessionId := Nat

/-- A message leaving the gateway: either enqueued to one UI session or
passed to a relay connection. -/
inductive Send where
  | ui (sid : SessionId) (msg : Json)
  | relay (msg : Json)
deriving Repr

/-- CommandGateway::Subscription. -/
structure Subscription where
  streams : List String := []
  cube_filter : List String := []
deriving DecidableEq, Repr

/-- `kDefaultStreams` in command_gateway.cpp. -/
def kDefaultStreams : List String := ["relay_status", "cube_update", "fleet_state", "log"]

/-- The gateway state: per-session subscriptions, the relay-status cache, the
group alias map, plus the shared CubeRegistry and FleetOrchestrator it
mutates, and the immutable field config. -/
structure GatewayState where
  subscriptions : List (SessionId × Subscription) := []
  relay_status : List (String × RelayStatusEvent) := []
  groups : List (String × List String) := []
  registry : Registry := {}
  orch : OrchestratorState := {}
  field_config : FieldConfig := {}
deriving Repr

/-- The outbound event envelope `{type, timestamp, payload}`. -/
def envelope (ty : String) (ts : Int) (payload : Json) : Json :=
  .obj [("type", .str ty), ("timestamp", .num ts), ("payload", payload)]

/-- CommandGateway::send_ack (the `details` argument defaults to a null json,
which is skipped; the one non-default caller passes a non-empty object). -/
def ackEnvelope (request_id : String) (details : Option Json) (ts : Int) : Json :=
  let base := [("request_id", Json.str request_id)]
  let payload :=
    match details with
    | some d => base ++ [("details", d)]
    | none => base
  envelope "ack" ts (.obj payload)

/-- CommandGateway::send_error. -/
def errorEnvelope (request_id code message : String) (ts : Int) : Json :=
  envelope "error" ts
    (.obj [("request_id", .str request_id), ("code", .str code), ("message", .str message)])

/-- CommandGateway::cube_state_to_json. -/
def cubeStateToJson (st : CubeState) : Json :=
  let base := [("cube_id", Json.str st.cube_id), ("relay_id", Json.str st.relay_id),
               ("battery", Json.num st.battery), ("state", Json.str st.state),
               ("goal_id", Json.str st.goal_id)]
  let withPos :=
    if st.has_position then
      base ++ [("position", Json.obj
        [("x", .num st.position.x), ("y", .num st.position.y),
         ("deg", .num st.position.deg), ("on_mat", .b st.position.on_mat)])]
    else base
  .obj (withPos ++
    [("led", Json.obj [("r", .num st.led.r), ("g", .num st.led.g), ("b", .num st.led.b)])])

/-- CommandGateway::make_field_payload. -/
def makeFieldPayload (fc : FieldConfig) : Json :=
  .obj [("top_left", .obj [("x", .num fc.top_left.x), ("y", .num fc.top_left.y)]),
        ("bottom_right", .obj [("x", .num fc.bottom_right.x), ("y", .num fc.bottom_right.y)])]

/-- CommandGateway::stream_enabled: sessions without a subscription entry and
sessions with an empty stream set receive everything. -/
def streamEnabled (gw : GatewayState) (sid : SessionId) (stream : String) : Bool :=
  match alookup sid gw.subscriptions with
  | none => true
  | some sub => sub.streams.isEmpty || decide (stream ∈ sub.streams)

/-- CommandGateway::cube_allowed: an empty cube filter admits every cube. -/
def cubeAllowed (gw : GatewayState) (sid : SessionId) (cube_id : String) : Bool :=
  match alookup sid gw.subscriptions with
  | none => true
  | some sub => sub.cube_filter.isEmpty || decide (cube_id ∈ sub.cube_filter)

/-- The per-session sub-batch publish_cube_updates builds: the cubes the
session's filter admits, serialized. -/
def sessionBatch (gw : GatewayState) (sid : SessionId) (updates : List CubeState) : List Json :=
  (updates.filter fun st => cubeAllowed gw sid st.cube_id).map cubeStateToJson

/-- CommandGateway::publish_cube_updates: skip sessions without the
`cube_update` stream, build the per-session sub-batch through `cube_allowed`,
and skip sessions whose sub-batch is empty. -/
def publishCubeUpdates (gw : GatewayState) (updates : List CubeState) (ts : Int) : List Send :=
  if updates.isEmpty then []
  else
    gw.subscriptions.flatMap fun entry =>
      if ¬streamEnabled gw entry.1 "cube_update" then []
      else if (sessionBatch gw entry.1 updates).isEmpty then []
      else [Send.ui entry.1 (envelope "cube_update" ts
        (.obj [("updates", .arr (sessionBatch gw entry.1 updates))]))]

/-- The `active_goals` entry built by publish_fleet_state. -/
def goalToJson (goal : GoalAssignment) : Json :=
  let base := [("goal_id", Json.str goal.goal_id), ("cube_id", Json.str goal.cube_id),
               ("priority", Json.num goal.priority), ("created_at", Json.num goal.created_at)]
  match goal.pose.angle with
  | some a => .obj (base ++ [("pose", .obj [("x", .num goal.pose.x), ("y", .num goal.pose.y), ("angle", .num a)])])
  | none => .obj (base ++ [("pose", .obj [("x", .num goal.pose.x), ("y", .num goal.pose.y)])])

/-- The fleet_state envelope publish_fleet_state builds from the
orchestrator snapshot. -/
def fleetEnvelope (gw : GatewayState) (ts : Int) : Json :=
  let snap := orchSnapshot gw.orch gw.registry
  envelope "fleet_state" ts (.obj
    [("tick_hz", .num snap.tick_hz),
     ("tasks_in_queue", .num (Int.ofNat snap.tasks_in_queue)),
     ("warnings", .arr (snap.warnings.map Json.str)),
     ("active_goals", .arr (snap.active_goals.map goalToJson))])

/-- CommandGateway::publish_fleet_state. -/
def publishFleetState (gw : GatewayState) (ts : Int) : List Send :=
  gw.subscriptions.flatMap fun entry =>
    if streamEnabled gw entry.1 "fleet_state" then [Send.ui entry.1 (fleetEnvelope gw ts)]
    else []

/-- A registry history entry serialized for the snapshot payload (the cube
json with a trailing `timestamp` key). -/
def historyEntryToJson (e : Int × CubeState) : Json :=
  match cubeStateToJson e.2 with
  | .obj fields => .obj (fields ++ [("timestamp", .num e.1)])
  | j => j

/-- CommandGateway::send_snapshot (the envelope built for one session). -/
def snapshotEnvelope (gw : GatewayState) (includeHistory : Bool) (ts : Int) : Json :=
  let relays := gw.relay_status.map fun entry =>
    Json.obj [("relay_id", .str entry.1), ("status", .str entry.2.status),
              ("message", .str entry.2.message)]
  let cubes := (registrySnapshot gw.registry).map cubeStateToJson
  let history :=
    if includeHistory then (registryHistory gw.registry 64).map historyEntryToJson
    else []
  envelope "snapshot" ts (.obj
    [("field", makeFieldPayload gw.field_config), ("relays", .arr relays),
     ("cubes", .arr cubes), ("history", .arr history)])

/-- CommandGateway::publish_field_info. -/
def fieldInfoEnvelope (gw : GatewayState) (ts : Int) : Json :=
  envelope "field_info" ts (makeFieldPayload gw.field_config)

/-- CommandGateway::handle_open: install the default subscription and send
the initial snapshot without history. -/
def handleOpen (gw : GatewayState) (sid : SessionId) (ts : Int) : GatewayState × List Send :=
  let sub : Subscription := { streams := kDefaultStreams, cube_filter := [] }
  let gw' := { gw with subscriptions := aput sid sub gw.subscriptions }
  (gw', [Send.ui sid (snapshotEnvelope gw' false ts)])

/-- CommandGateway::handle_close. -/
def handleClose (gw : GatewayState) (sid : SessionId) : GatewayState :=
  { gw with subscriptions := adel sid gw.subscriptions }

/-- The stream set handle_subscribe installs: the deduplicated string entries
of a present `streams` array, falling back to the default set when the key is
absent, not an array, or yields no strings. -/
def subscribeStreams (payload : Json) : List String :=
  match payload.find "streams" with
  | some (.arr entries) =>
    let collected := setInsertAll [] entries
    if collected.isEmpty then kDefaultStreams else collected
  | _ => kDefaultStreams

/-- The cube filter handle_subscribe installs: the string entries of a
present `cube_filter` array, otherwise empty. -/
def subscribeCubeFilter (payload : Json) : List String :=
  match payload.find "cube_filter" with
  | some (.arr entries) => setInsertAll [] entries
  | _ => []

/-- The tail of handle_subscribe once `include_history` has been read:
replace the subscription, ack, field_info, optional history snapshot. -/
def subscribeResult (gw : GatewayState) (payload : Json) (request_id : String)
    (sid : SessionId) (ts : Int) (includeHistory : Bool) : GatewayState × List Send :=
  let sub : Subscription :=
    { streams := subscribeStreams payload, cube_filter := subscribeCubeFilter payload }
  let gw' := { gw with subscriptions := aput sid sub gw.subscriptions }
  let tail := if includeHistory then [Send.ui sid (snapshotEnvelope gw' true ts)] else []
  (gw', [Send.ui sid (ackEnvelope request_id none ts),
         Send.ui sid (fieldInfoEnvelope gw' ts)] ++ tail)

/-- CommandGateway::handle_subscribe.  `payload.value("include_history",
false)` is evaluated before the subscription table is written, so a throwing
payload leaves the subscription and sends untouched. -/
def handleSubscribe (gw : GatewayState) (payload : Json) (request_id : String)
    (sid : SessionId) (ts : Int) : Except String (GatewayState × List Send) := do
  let includeHistory ← payload.valueBool "include_history" false
  .ok (subscribeResult gw payload request_id sid ts includeHistory)

/-- CommandGateway::handle_manual_drive. -/
def handleManualDrive (gw : GatewayState) (rm : RelayManagerState) (payload : Json)
    (request_id : String) (sid : SessionId) (ts : Int) :
    Except String (GatewayState × List Send) :=
  match payload.find "targets" with
  | some (.arr targetItems) => do
    let targets := stringEntries targetItems
    let left ← payload.valueInt "left" 0
    let right ← payload.valueInt "right" 0
    match sendManualDrive rm targets left right with
    | (true, _, sent) =>
      .ok (gw, sent.map Send.relay ++ [Send.ui sid (ackEnvelope request_id none ts)])
    | (false, err, sent) =>
      .ok (gw, sent.map Send.relay ++
        [Send.ui sid (errorEnvelope request_id "relay_error" (err.getD "") ts)])
  | _ =>
    .ok (gw, [Send.ui sid (errorEnvelope request_id "invalid_payload"
      "manual_drive.targets must be array" ts)])

/-- CommandGateway::handle_set_led: forward to the relay manager, then
synthesize led patches for the targets, apply them, publish the diffs, and
acknowledge last. -/
def handleSetLed (gw : GatewayState) (rm : RelayManagerState) (payload : Json)
    (request_id : String) (sid : SessionId) (ts : Int) :
    Except String (GatewayState × List Send) :=
  match payload.find "targets" with
  | some (.arr targetItems) => do
    let targets := stringEntries targetItems
    let color ← payload.valueJson "color" (.obj [])
    if ¬color.isObj then
      .ok (gw, [Send.ui sid (errorEnvelope request_id "invalid_payload" "color must be object" ts)])
    else do
      let r ← color.valueInt "r" 0
      let g ← color.valueInt "g" 0
      let b ← color.valueInt "b" 0
      match sendLedCommand rm targets r g b with
      | (false, err, sent) =>
        .ok (gw, sent.map Send.relay ++
          [Send.ui sid (errorEnvelope request_id "relay_error" (err.getD "") ts)])
      | (true, _, sent) =>
        let updates := targets.map fun cube =>
          { cube_id := cube, timestamp := ts,
            led := some { r := r, g := g, b := b } : CubeUpdate }
        let (reg', changed) := applyUpdates gw.registry updates
        let gw' := { gw with registry := reg' }
        let pubs := if changed.isEmpty then [] else publishCubeUpdates gw' changed ts
        .ok (gw', sent.map Send.relay ++ pubs ++ [Send.ui sid (ackEnvelope request_id none ts)])
  | _ =>
    .ok (gw, [Send.ui sid (errorEnvelope request_id "invalid_payload"
      "set_led.targets must be array" ts)])

/-- The optional `goal.angle` extraction of handle_set_goal:
`if (goal_json.contains("angle")) request.pose.angle = goal_json.value("angle", 0.0)`. -/
def goalAngle (goalJson : Json) : Except String (Option Int) :=
  if goalJson.hasKey "angle" then (goalJson.valueInt "angle" 0).map some
  else Except.ok none

/-- The tail of handle_set_goal after a successful assign_goal: write the
goal id into the registry for every target, publish the diffs and the fleet
state, and acknowledge last with the goal id. -/
def setGoalPublish (gw : GatewayState) (orch' : OrchestratorState) (goal_id : String)
    (targets : List String) (request_id : String) (sid : SessionId) (ts : Int) :
    GatewayState × List Send :=
  let (reg', changed) := applyUpdates gw.registry (targets.map fun cube =>
    { cube_id := cube, relay_id := some "", goal_id := some goal_id,
      timestamp := ts : CubeUpdate })
  let gw' := { gw with orch := orch', registry := reg' }
  let pubs := if changed.isEmpty then [] else publishCubeUpdates gw' changed ts
  let fleet := publishFleetState gw' ts
  (gw', pubs ++ fleet ++
    [Send.ui sid (ackEnvelope request_id (some (.obj [("goal_id", .str goal_id)])) ts)])

/-- CommandGateway::handle_set_goal: validate, assign through the
orchestrator (its invalid-argument throw is caught and surfaced as
invalid_payload), then `setGoalPublish`. -/
def handleSetGoal (gw : GatewayState) (payload : Json) (request_id : String)
    (sid : SessionId) (ts : Int) : Except String (GatewayState × List Send) :=
  match payload.find "targets" with
  | some (.arr targetItems) =>
    if targetItems.isEmpty then
      .ok (gw, [Send.ui sid (errorEnvelope request_id "invalid_payload"
        "set_goal.targets must be non-empty array" ts)])
    else
      match payload.find "goal" with
      | some (.obj goalFields) => do
        let x ← (Json.obj goalFields).valueInt "x" 0
        let y ← (Json.obj goalFields).valueInt "y" 0
        let angle ← goalAngle (Json.obj goalFields)
        let priority ← payload.valueInt "priority" 0
        let keepHistory ← payload.valueBool "keep_history" false
        match assignGoal gw.orch
            { targets := stringEntries targetItems,
              pose := { x := x, y := y, angle := angle },
              priority := priority, keep_history := keepHistory } ts with
        | (orch', .error msg) =>
          .ok ({ gw with orch := orch' },
            [Send.ui sid (errorEnvelope request_id "invalid_payload" msg ts)])
        | (orch', .ok goal_id) =>
          .ok (setGoalPublish gw orch' goal_id (stringEntries targetItems) request_id sid ts)
      | _ =>
        .ok (gw, [Send.ui sid (errorEnvelope request_id "invalid_payload"
          "goal must be object" ts)])
  | _ =>
    .ok (gw, [Send.ui sid (errorEnvelope request_id "invalid_payload"
      "set_goal.targets must be non-empty array" ts)])

/-- CommandGateway::handle_set_group. -/
def handleSetGroup (gw : GatewayState) (payload : Json) (request_id : String)
    (sid : SessionId) (ts : Int) : Except String (GatewayState × List Send) := do
  let group_id ← payload.valueStr "group_id" ""
  if group_id = "" then
    .ok (gw, [Send.ui sid (errorEnvelope request_id "invalid_payload" "group_id is required" ts)])
  else
    match payload.find "members" with
    | some (.arr memberItems) =>
      .ok ({ gw with groups := aput group_id (stringEntries memberItems) gw.groups },
        [Send.ui sid (ackEnvelope request_id none ts)])
    | _ =>
      .ok (gw, [Send.ui sid (errorEnvelope request_id "invalid_payload" "members must be array" ts)])

/-- CommandGateway::handle_request_snapshot: the snapshot goes out before the
ack. -/
def handleRequestSnapshot (gw : GatewayState) (payload : Json) (request_id : String)
    (sid : SessionId) (ts : Int) : Except String (GatewayState × List Send) := do
  let includeHistory ← payload.valueBool "include_history" false
  .ok (gw, [Send.ui sid (snapshotEnvelope gw includeHistory ts),
            Send.ui sid (ackEnvelope request_id none ts)])

/-- CommandGateway::handle_message: type check, request_id / payload
extraction, dispatch. -/
def handleMessage (gw : GatewayState) (rm : RelayManagerState) (message : Json)
    (sid : SessionId) (ts : Int) : Except String (GatewayState × List Send) :=
  match message.find "type" with
  | some (.str ty) => do
    let request_id ← message.valueStr "request_id" ""
    let payload ← message.valueJson "payload" (.obj [])
    if ty = "subscribe" then handleSubscribe gw payload request_id sid ts
    else if ty = "manual_drive" then handleManualDrive gw rm payload request_id sid ts
    else if ty = "set_led" then handleSetLed gw rm payload request_id sid ts
    else if ty = "set_goal" then handleSetGoal gw payload request_id sid ts
    else if ty = "set_group" then handleSetGroup gw payload request_id sid ts
    else if ty = "request_snapshot" then handleRequestSnapshot gw payload request_id sid ts
    else
      .ok (gw, [Send.ui sid (errorEnvelope request_id "invalid_payload"
        ("unknown command type: " ++ ty) ts)])
  | _ =>
    .ok (gw, [Send.ui sid (errorEnvelope "" "invalid_payload" "message.type must be string" ts)])

/-- WsServer::handle_session_message's catch: an exception escaping a handler
is logged, leaving the gateway state unchanged with nothing sent. -/
def runHandler (gw : GatewayState) (r : Except String (GatewayState × List Send)) :
    GatewayState × List Send :=
  match r with
  | .ok x => x
  | .error _ => (gw, [])

/-- The sub-sequence of messages enqueued to one session, in order. -/
def uiTo (sid : SessionId) : List Send → List Json
  | [] => []
  | .ui s m :: rest => if s = sid then m :: uiTo sid rest else uiTo sid rest
  | .relay _ :: rest => uiTo sid rest

/-- The envelope type tag of an outbound message. -/
def envType (j : Json) : String :=
  match j.find "type" with
  | some (.str t) => t
  | _ => ""

/-- Event envelopes caused by a command, in the sense of claim C1. -/
def isEventEnv (j : Json) : Bool :=
  envType j = "cube_update" || envType j = "fleet_state"

def isAckErrEnv (j : Json) : Bool :=
  envType j = "ack" || envType j = "error"

/-- Whether no cube_update / fleet_state envelope precedes the first
ack/error envelope of a per-session message sequence. -/
def ackPrecedesEvents : List Json → Bool
  | [] => true
  | m :: rest =>
    if isEventEnv m then false
    else if isAckErrEnv m then true
    else ackPrecedesEvents rest

/-! ## WsServer session table vs gateway subscriptions (ws_server.cpp)

The lifecycle events that touch the WsServer `sessions_` table and the
gateway `subscriptions_` table.  Modelled from the spec: the callback wiring
(`open_handler = gateway.handle_open`, `close_handler = gateway.handle_close`,
installed in app.cpp, which is not among the provided sources) follows spec
§4.5/§4.6.  The table mutations themselves are from ws_server.cpp: `do_accept`
emplaces the session before the websocket handshake; `handle_session_ready`
fires the open handler; `handle_session_closed` erases the session and fires
the close handler; `stop()` closes the acceptor and clears `sessions_`
without invoking any close handler. -/

structure ServerState where
  wsSessions : List SessionId := []
  subs : List SessionId := []
  opened : List SessionId := []
  closed : List SessionId := []
deriving DecidableEq, Repr

inductive ServerEvent where
  | accept (sid : SessionId)
  | handshakeOk (sid : SessionId)
  | sessionClosed (sid : SessionId)
  | stop
deriving DecidableEq, Repr

/-- Set insert for session id lists. -/
def insertId (x : SessionId) (xs : List SessionId) : List SessionId :=
  if x ∈ xs then xs else xs ++ [x]

/-- Erase by key (first occurrence; the tables hold each id at most once). -/
def removeId (x : SessionId) : List SessionId → List SessionId
  | [] => []
  | y :: rest => if y = x then rest else y :: removeId x rest

/-- One lifecycle step. `accept`: `sessions_.emplace`. `handshakeOk`:
`on_accept` succeeded, `handle_session_ready` runs the gateway's
`handle_open`, which installs the subscription. `sessionClosed`:
`close_with_error` → `handle_session_closed` erases the table entry and the
gateway's `handle_close` drops the subscription. `stop`: `sessions_.clear()`
with no callbacks. -/
def serverStep (s : ServerState) : ServerEvent → ServerState
  | .accept sid => { s with wsSessions := insertId sid s.wsSessions }
  | .handshakeOk sid =>
    { s with subs := insertId sid s.subs, opened := insertId sid s.opened }
  | .sessionClosed sid =>
    { s with wsSessions := removeId sid s.wsSessions, subs := removeId sid s.subs,
             closed := insertId sid s.closed }
  | .stop => { s with wsSessions := [] }

/-- Which lifecycle events can actually fire in a given state: session ids
are fresh on accept, a handshake completes once for an accepted live
session, and a close fires once for a session that was accepted or opened. -/
def serverEnabled (s : ServerState) : ServerEvent → Bool
  | .accept sid =>
    decide (sid ∉ s.wsSessions) && decide (sid ∉ s.opened) && decide (sid ∉ s.closed)
  | .handshakeOk sid =>
    decide (sid ∈ s.wsSessions) && decide (sid ∉ s.opened) && decide (sid ∉ s.closed)
  | .sessionClosed sid =>
    decide (sid ∉ s.closed) && (decide (sid ∈ s.wsSessions) || decide (sid ∈ s.opened))
  | .stop => true

def serverRun (s : ServerState) : List ServerEvent → ServerState
  | [] => s
  | e :: rest => serverRun (serverStep s e) rest

def validTrace (s : ServerState) : List ServerEvent → Bool
  | [] => true
  | e :: rest => serverEnabled s e && validTrace (serverStep s e) rest

def traceHasStop : List ServerEvent → Bool
  | [] => false
  | .stop :: _ => true
  | _ :: rest => traceHasStop rest

/-! ## Helper lemmas -/

theorem alookup_aput_self {α β : Type} [DecidableEq α] (k : α) (v : β)
    (l : List (α × β)) : alookup k (aput k v l) = some v := by
  induction l with
  | nil => simp [alookup, aput]
  | cons hd tl ih =>
    obtain ⟨k', v'⟩ := hd
    by_cases h : k' = k
    · subst h
      simp [alookup, aput]
    · simp [alookup, aput, h, ih]

theorem alookup_aput_ne {α β : Type} [DecidableEq α] {c k : α} (v : β)
    (l : List (α × β)) (hne : c ≠ k) : alookup c (aput k v l) = alookup c l := by
  induction l with
  | nil =>
    simp only [aput, alookup]
    rw [if_neg (fun h => hne h.symm)]
  | cons hd tl ih =>
    obtain ⟨k', v'⟩ := hd
    by_cases h : k' = k
    · subst h
      simp only [aput, if_pos rfl, alookup]
      rw [if_neg (fun h2 => hne h2.symm), if_neg (fun h2 => hne h2.symm)]
    · simp only [aput, if_neg h, alookup]
      by_cases h2 : k' = c
      · simp [h2]
      · simp [h2, ih]

/-! ## Claim C4 -/

/-- C4: `assign_goal` throws an invalid-argument error iff `targets` is
empty, leaving the orchestrator state unchanged in that case; otherwise it
returns `"goal-" ++ (counter+1)` while bumping the counter (so successive
successful ids strictly increase and the first successful call from the
initial state returns "goal-1"), stores the assignment for `targets[0]` only
(replacing any prior assignment for that cube and no other), appends to the
history only when `keep_history` is set, and keeps the history within 64
entries. -/
theorem C4_assign_goal (st : OrchestratorState) (req : GoalRequest) (now : Int) :
    ((∃ e, (assignGoal st req now).2 = Except.error e) ↔ req.targets = [])
    ∧ (req.targets = [] →
        assignGoal st req now = (st, Except.error "GoalRequest.targets must not be empty"))
    ∧ (∀ t ts, req.targets = t :: ts →
        (assignGoal st req now).2 = Except.ok ("goal-" ++ toString (st.goal_counter + 1))
        ∧ (assignGoal st req now).1.goal_counter = st.goal_counter + 1
        ∧ alookup t (assignGoal st req now).1.active_goals =
            some { goal_id := "goal-" ++ toString (st.goal_counter + 1), cube_id := t,
                   pose := req.pose, priority := req.priority, created_at := now }
        ∧ (∀ c, c ≠ t →
            alookup c (assignGoal st req now).1.active_goals = alookup c st.active_goals)
        ∧ (req.keep_history = true →
            { goal_id := "goal-" ++ toString (st.goal_counter + 1), cube_id := t,
              pose := req.pose, priority := req.priority,
              created_at := now : GoalAssignment } ∈ (assignGoal st req now).1.history)
        ∧ (req.keep_history = false → (assignGoal st req now).1.history = st.history))
    ∧ (st.history.length ≤ 64 → (assignGoal st req now).1.history.length ≤ 64) := by
  have hm : maxHistory = 64 := rfl
  obtain ⟨targets, pose, priority, keep⟩ := req
  cases targets with
  | nil =>
    refine ⟨by simp [assignGoal], fun _ => rfl, ?_, ?_⟩
    · intro t ts h
      cases h
    · intro h
      simpa [assignGoal] using h
  | cons t ts =>
    refine ⟨by simp [assignGoal], ?_, ?_, ?_⟩
    · intro h
      cases h
    · intro t' ts' h
      have h' : t :: ts = t' :: ts' := h
      injection h' with h1 h2
      subst h1
      subst h2
      refine ⟨rfl, rfl, ?_, ?_, ?_, ?_⟩
      · show alookup t (aput t _ st.active_goals) = _
        rw [alookup_aput_self]
      · intro c hc
        show alookup c (aput t _ st.active_goals) = _
        rw [alookup_aput_ne _ st.active_goals hc]
      · intro hk
        show _ ∈ (if keep = true then _ else st.history)
        rw [if_pos hk]
        simp only [List.length_append, List.length_singleton]
        by_cases hlen : st.history.length + 1 > maxHistory
        · rw [if_pos hlen]
          obtain ⟨hd, tl, hh⟩ : ∃ hd tl, st.history = hd :: tl := by
            cases hhist : st.history with
            | nil =>
              rw [hhist] at hlen
              rw [hm] at hlen
              simp at hlen
            | cons hd tl => exact ⟨hd, tl, rfl⟩
          rw [hh]
          simp
        · rw [if_neg hlen]
          simp
      · intro hk
        show (if keep = true then _ else st.history) = st.history
        have hk' : keep = false := hk
        rw [hk']
        simp
    · intro hlen
      show (if keep = true then _ else st.history).length ≤ 64
      by_cases hk : keep = true
      · rw [if_pos hk]
        simp only [List.length_append, List.length_singleton]
        by_cases hover : st.history.length + 1 > maxHistory
        · rw [if_pos hover, List.length_drop]
          simp only [List.length_append, List.length_singleton]
          omega
        · rw [if_neg hover]
          simp only [List.length_append, List.length_singleton]
          rw [hm] at hover
          omega
      · rw [if_neg hk]
        exact hlen

/-- Witness for C4 at concrete inputs: the first successful call from the
initial state yields "goal-1" and installs the assignment, while the
empty-targets call errors and leaves the state untouched. -/
theorem C4_assign_goal_witness :
    (assignGoal {} { targets := ["A01"], keep_history := true } 5).2 = Except.ok "goal-1"
    ∧ alookup "A01" (assignGoal {} { targets := ["A01"], keep_history := true } 5).1.active_goals =
        some { goal_id := "goal-1", cube_id := "A01", pose := {}, priority := 0, created_at := 5 }
    ∧ assignGoal {} { targets := [] } 5 =
        ({}, Except.error "GoalRequest.targets must not be empty") := by
  have h1 := (C4_assign_goal {} { targets := ["A01"], keep_history := true } 5).2.2.1 "A01" [] rfl
  have h2 := (C4_assign_goal {} { targets := [] } 5).2.1 rfl
  exact ⟨h1.1, h1.2.2.1, h2⟩

/-! ## Claim C9 -/

/-- C9: when a relay reports Connected, handle_status sends that relay, for
each cube in its configured list in order, exactly three messages: the
`connect` command, the `position` query with `notify:true`, and the
`battery` query — and nothing else; any other reported state sends no
bootstrap messages. -/
theorem C9_bootstrap_on_connected (rm : RelayManagerState) (relay_id message : String)
    (handle : RelayHandle)
    (hfind : rm.relays.find? (fun h => h.id = relay_id) = some handle) :
    (handleStatus rm relay_id .Connected message).2.2 =
      handle.cubes.flatMap (fun cube =>
        [Json.obj [("type", Json.str "command"),
           ("payload", Json.obj [("cmd", Json.str "connect"), ("target", Json.str cube),
             ("require_result", Json.b false)])],
         Json.obj [("type", Json.str "query"),
           ("payload", Json.obj [("info", Json.str "position"), ("target", Json.str cube),
             ("notify", Json.b true)])],
         Json.obj [("type", Json.str "query"),
           ("payload", Json.obj [("info", Json.str "battery"), ("target", Json.str cube)])]])
    ∧ (∀ st : RelayConnectionState, st ≠ .Connected →
        (handleStatus rm relay_id st message).2.2 = []) := by
  constructor
  · show statusSends { rm with relay_states := aput relay_id .Connected rm.relay_states }
      relay_id .Connected = _
    unfold statusSends
    rw [if_pos rfl]
    show (match rm.relays.find? (fun h => h.id = relay_id) with
      | some handle => bootstrapRelay handle
      | none => []) = _
    rw [hfind]
    rfl
  · intro st hst
    show statusSends { rm with relay_states := aput relay_id st rm.relay_states }
      relay_id st = []
    unfold statusSends
    rw [if_neg hst]

/-- A one-relay manager fixture: relay "r1" fronting cube "A01". -/
def rmA01 : RelayManagerState :=
  { relays := [{ id := "r1", cubes := ["A01"] }],
    cube_to_relay := [("A01", "r1")],
    relay_states := [("r1", .Connected)] }

/-- Witness for C9: the manager of `rmA01` receives the three-message
bootstrap of the spec's scenario on Connected, and a `connecting` report
sends nothing. -/
theorem C9_bootstrap_on_connected_witness :
    (handleStatus rmA01 "r1" .Connected "connected").2.2 =
      [Json.obj [("type", Json.str "command"),
         ("payload", Json.obj [("cmd", Json.str "connect"), ("target", Json.str "A01"),
           ("require_result", Json.b false)])],
       Json.obj [("type", Json.str "query"),
         ("payload", Json.obj [("info", Json.str "position"), ("target", Json.str "A01"),
           ("notify", Json.b true)])],
       Json.obj [("type", Json.str "query"),
         ("payload", Json.obj [("info", Json.str "battery"), ("target", Json.str "A01")])]]
    ∧ (handleStatus rmA01 "r1" .Connecting "resolving").2.2 = [] := by
  have h := C9_bootstrap_on_connected rmA01 "r1" "connected"
    { id := "r1", cubes := ["A01"] } (by rfl)
  have h2 := C9_bootstrap_on_connected rmA01 "r1" "resolving"
    { id := "r1", cubes := ["A01"] } (by rfl)
  exact ⟨h.1, h2.2 .Connecting (by simp)⟩

/-! ## Claim C3 -/

/-- Whether routing a command to a cube succeeds. -/
def routeOk (rm : RelayManagerState) (t : String) : Bool :=
  match routeToCube rm t with
  | .ok _ => true
  | .error _ => false

/-- The error message routing produces for a failing target. -/
def routeErr (rm : RelayManagerState) (t : String) : String :=
  match routeToCube rm t with
  | .ok _ => ""
  | .error e => e

theorem routeStatus_of_error {rm : RelayManagerState} {t e : String}
    (h : routeToCube rm t = .error e) : routeOk rm t = false ∧ routeErr rm t = e := by
  unfold routeOk routeErr
  rw [h]
  exact ⟨rfl, rfl⟩

theorem routeToCube_unknown {rm : RelayManagerState} {t : String}
    (h : alookup t rm.cube_to_relay = none) :
    routeToCube rm t = .error ("cube " ++ t ++ " is not registered") := by
  unfold routeToCube
  rw [h]

theorem routeToCube_not_connected {rm : RelayManagerState} {t rid : String}
    (hsome : alookup t rm.cube_to_relay = some rid)
    (hreg : (rm.relays.find? (fun h => h.id = rid)).isSome = true)
    (hnc : (alookup rid rm.relay_states).getD .Stopped ≠ .Connected) :
    routeToCube rm t = .error ("relay " ++ rid ++ " not connected") := by
  unfold routeToCube
  rw [hsome]
  show (if (rm.relays.find? (fun h => h.id = rid)).isSome = true then
      if (alookup rid rm.relay_states).getD .Stopped = .Connected then Except.ok rid
      else Except.error ("relay " ++ rid ++ " not connected")
    else Except.error ("relay " ++ rid ++ " not registered")) = _
  rw [if_pos hreg, if_neg hnc]

theorem sendToCube_of_routeOk {rm : RelayManagerState} {t : String} (x : Json)
    (h : routeOk rm t = true) : sendToCube rm t x = .ok x := by
  unfold routeOk at h
  unfold sendToCube
  cases hr : routeToCube rm t with
  | ok rid => rfl
  | error e =>
    rw [hr] at h
    cases h

theorem sendToCube_of_routeFail {rm : RelayManagerState} {t : String} (x : Json)
    (h : routeOk rm t = false) : sendToCube rm t x = .error (routeErr rm t) := by
  unfold routeOk at h
  unfold sendToCube routeErr
  cases hr : routeToCube rm t with
  | ok rid =>
    rw [hr] at h
    cases h
  | error e => rfl

theorem sendBatch_all_ok (rm : RelayManagerState) (envFor : String → Json)
    (ts : List String) (h : ts.all (routeOk rm) = true) :
    sendBatch rm envFor ts = (true, none, ts.map envFor) := by
  induction ts with
  | nil => rfl
  | cons t rest ih =>
    rw [List.all_cons, Bool.and_eq_true] at h
    show (match sendToCube rm t (envFor t) with
      | .error msg => (false, some msg, [])
      | .ok e =>
        let result := sendBatch rm envFor rest
        (result.1, result.2.1, e :: result.2.2)) = _
    rw [sendToCube_of_routeOk (envFor t) h.1, ih h.2]
    rfl

theorem sendBatch_first_fail (rm : RelayManagerState) (envFor : String → Json)
    (ts : List String) (h : ts.all (routeOk rm) = false) :
    ∃ bad rest, ts.dropWhile (routeOk rm) = bad :: rest
      ∧ routeOk rm bad = false
      ∧ sendBatch rm envFor ts =
          (false, some (routeErr rm bad), (ts.takeWhile (routeOk rm)).map envFor) := by
  induction ts with
  | nil => cases h
  | cons t rest ih =>
    rw [List.all_cons, Bool.and_eq_false_iff] at h
    by_cases ht : routeOk rm t = true
    · have hrest : rest.all (routeOk rm) = false := by
        rcases h with h1 | h2
        · rw [ht] at h1
          cases h1
        · exact h2
      obtain ⟨bad, tl, hdrop, hbad, hsend⟩ := ih hrest
      refine ⟨bad, tl, ?_, hbad, ?_⟩
      · rw [List.dropWhile_cons_of_pos ht]
        exact hdrop
      · rw [List.takeWhile_cons_of_pos ht]
        show (match sendToCube rm t (envFor t) with
          | .error msg => (false, some msg, [])
          | .ok e =>
            let result := sendBatch rm envFor rest
            (result.1, result.2.1, e :: result.2.2)) = _
        rw [sendToCube_of_routeOk (envFor t) ht, hsend]
        rfl
    · have ht' : routeOk rm t = false := by
        cases hv : routeOk rm t
        · rfl
        · exact absurd hv ht
      refine ⟨t, rest, ?_, ht', ?_⟩
      · rw [List.dropWhile_cons_of_neg (by rw [ht']; simp)]
      · rw [List.takeWhile_cons_of_neg (by rw [ht']; simp)]
        show (match sendToCube rm t (envFor t) with
          | .error msg => (false, some msg, [])
          | .ok e =>
            let result := sendBatch rm envFor rest
            (result.1, result.2.1, e :: result.2.2)) = _
        rw [sendToCube_of_routeFail (envFor t) ht']
        rfl

/-- C3: when some target of a manual_drive / set_led batch fails routing
(unknown cube or relay not Connected), the call returns false with the first
failing target's error message — "cube <id> is not registered" names the
offending cube — the envelopes for the targets before the first failure have
already gone out and stay out, and nothing is sent for the failing target or
any later one; a lone unknown target "ZZZ" yields a gateway `relay_error`
naming ZZZ with no relay traffic. -/
theorem C3_batch_abort_on_failure (rm : RelayManagerState) (targets : List String)
    (left right r g b : Int) :
    (targets ≠ [] → targets.all (routeOk rm) = false →
      ∃ bad rest, targets.dropWhile (routeOk rm) = bad :: rest
        ∧ routeOk rm bad = false
        ∧ sendManualDrive rm targets left right =
            (false, some (routeErr rm bad),
             (targets.takeWhile (routeOk rm)).map (fun t => driveEnvelope t left right))
        ∧ sendLedCommand rm targets r g b =
            (false, some (routeErr rm bad),
             (targets.takeWhile (routeOk rm)).map (fun t => ledEnvelope t r g b)))
    ∧ (∀ t, alookup t rm.cube_to_relay = none →
        routeOk rm t = false ∧ routeErr rm t = "cube " ++ t ++ " is not registered")
    ∧ (∀ t rid, alookup t rm.cube_to_relay = some rid →
        (rm.relays.find? (fun h => h.id = rid)).isSome = true →
        (alookup rid rm.relay_states).getD .Stopped ≠ .Connected →
        routeOk rm t = false ∧ routeErr rm t = "relay " ++ rid ++ " not connected")
    ∧ (∀ gw : GatewayState, ∀ sid : SessionId, ∀ request_id : String, ∀ ts : Int,
        alookup "ZZZ" rm.cube_to_relay = none →
        handleManualDrive gw rm
          (.obj [("targets", .arr [.str "ZZZ"]), ("left", .num 30), ("right", .num 30)])
          request_id sid ts =
        .ok (gw, [Send.ui sid (errorEnvelope request_id "relay_error"
          "cube ZZZ is not registered" ts)])) := by
  refine ⟨?_, ?_, ?_, ?_⟩
  · intro hne hbad
    obtain ⟨bad, rest, hdrop, hbadok, hsend⟩ :=
      sendBatch_first_fail rm (fun t => driveEnvelope t left right) targets hbad
    obtain ⟨bad2, rest2, hdrop2, _, hsend2⟩ :=
      sendBatch_first_fail rm (fun t => ledEnvelope t r g b) targets hbad
    have hb : bad2 = bad := by
      rw [hdrop] at hdrop2
      injection hdrop2 with e1 _
      exact e1.symm
    refine ⟨bad, rest, hdrop, hbadok, ?_, ?_⟩
    · cases targets with
      | nil => exact absurd rfl hne
      | cons t ts2 => exact hsend
    · cases targets with
      | nil => exact absurd rfl hne
      | cons t ts2 =>
        rw [hb] at hsend2
        exact hsend2
  · intro t hnone
    exact routeStatus_of_error (routeToCube_unknown hnone)
  · intro t rid hsome hreg hnc
    exact routeStatus_of_error (routeToCube_not_connected hsome hreg hnc)
  · intro gw sid request_id ts hz
    show (do
      let left ← Json.valueInt (.obj [("targets", .arr [.str "ZZZ"]), ("left", .num 30),
        ("right", .num 30)]) "left" 0
      let right ← Json.valueInt (.obj [("targets", .arr [.str "ZZZ"]), ("left", .num 30),
        ("right", .num 30)]) "right" 0
      match sendManualDrive rm (stringEntries [.str "ZZZ"]) left right with
      | (true, _, sent) =>
        Except.ok (gw, sent.map Send.relay ++ [Send.ui sid (ackEnvelope request_id none ts)])
      | (false, err, sent) =>
        Except.ok (gw, sent.map Send.relay ++
          [Send.ui sid (errorEnvelope request_id "relay_error" (err.getD "") ts)])) = _
    have hroute : routeToCube rm "ZZZ" = .error "cube ZZZ is not registered" :=
      routeToCube_unknown hz
    have hsend : sendManualDrive rm ["ZZZ"] 30 30 =
        (false, some "cube ZZZ is not registered", []) := by
      show sendBatch rm (fun t => driveEnvelope t 30 30) ["ZZZ"] = _
      show (match sendToCube rm "ZZZ" (driveEnvelope "ZZZ" 30 30) with
        | .error msg => (false, some msg, [])
        | .ok e =>
          let result := sendBatch rm (fun t => driveEnvelope t 30 30) []
          (result.1, result.2.1, e :: result.2.2)) = _
      show (match (match routeToCube rm "ZZZ" with
          | .ok _ => Except.ok (driveEnvelope "ZZZ" 30 30)
          | .error e => Except.error e) with
        | .error msg => ((false : Bool), some msg, ([] : List Json))
        | .ok e =>
          let result := sendBatch rm (fun t => driveEnvelope t 30 30) []
          (result.1, result.2.1, e :: result.2.2)) = _
      rw [hroute]
    show (match sendManualDrive rm ["ZZZ"] 30 30 with
      | (true, _, sent) =>
        Except.ok (gw, sent.map Send.relay ++ [Send.ui sid (ackEnvelope request_id none ts)])
      | (false, err, sent) =>
        Except.ok (gw, sent.map Send.relay ++
          [Send.ui sid (errorEnvelope request_id "relay_error" (err.getD "") ts)])) = _
    rw [hsend]
    rfl

/-- Witness for C3: over `rmA01`, the batch ["A01", "ZZZ"] sends the envelope
for A01, aborts at the unknown ZZZ with its name in the message, and the
one-target ZZZ manual_drive produces only the gateway relay_error. -/
theorem C3_batch_abort_on_failure_witness :
    sendManualDrive rmA01 ["A01", "ZZZ"] 30 30 =
      (false, some "cube ZZZ is not registered", [driveEnvelope "A01" 30 30])
    ∧ sendLedCommand rmA01 ["A01", "ZZZ"] 255 0 0 =
      (false, some "cube ZZZ is not registered", [ledEnvelope "A01" 255 0 0])
    ∧ handleManualDrive {} rmA01
        (.obj [("targets", .arr [.str "ZZZ"]), ("left", .num 30), ("right", .num 30)])
        "q1" 7 100 =
      .ok ({}, [Send.ui 7 (errorEnvelope "q1" "relay_error"
        "cube ZZZ is not registered" 100)]) := by
  have h := C3_batch_abort_on_failure rmA01 ["A01", "ZZZ"] 30 30 255 0 0
  obtain ⟨bad, rest, hdrop, _, hdrive, hled⟩ := h.1 (by simp) (by rfl)
  have hb : bad = "ZZZ" := by
    have hd : List.dropWhile (routeOk rmA01) ["A01", "ZZZ"] = ["ZZZ"] := by rfl
    rw [hd] at hdrop
    injection hdrop with e1 _
    exact e1.symm
  rw [hb] at hdrive hled
  refine ⟨?_, ?_, ?_⟩
  · rw [hdrive]
    rfl
  · rw [hled]
    rfl
  · exact h.2.2.2 {} 7 "q1" 100 rfl

/-! ## Claim C10 -/

theorem stringEntries_filter_isStr (ts : List Json) :
    stringEntries ts = stringEntries (ts.filter Json.isStr) := by
  induction ts with
  | nil => rfl
  | cons j rest ih =>
    cases j with
    | str s => simpa [stringEntries, List.filter, Json.isStr] using ih
    | null => simpa [stringEntries, List.filter, Json.isStr] using ih
    | b v => simpa [stringEntries, List.filter, Json.isStr] using ih
    | num n => simpa [stringEntries, List.filter, Json.isStr] using ih
    | arr xs => simpa [stringEntries, List.filter, Json.isStr] using ih
    | obj fs => simpa [stringEntries, List.filter, Json.isStr] using ih

/-- C10: non-string entries in `targets` are silently skipped (collecting
targets from a list equals collecting from its string-only restriction), so
a non-empty all-non-string `targets` array reaches the relay manager as an
empty batch: manual_drive and set_led answer `relay_error` ("… requires at
least one target"), not invalid_payload, while set_goal trips the
orchestrator's empty-targets exception and answers `invalid_payload`. -/
theorem C10_nonstring_targets_skipped (gw : GatewayState) (rm : RelayManagerState)
    (ts : List Json) (request_id : String) (sid : SessionId) (now : Int)
    (hne : ts ≠ []) (hnostr : stringEntries ts = []) :
    (∀ ts2 : List Json, stringEntries ts2 = stringEntries (ts2.filter Json.isStr))
    ∧ handleManualDrive gw rm (.obj [("targets", .arr ts)]) request_id sid now =
        .ok (gw, [Send.ui sid (errorEnvelope request_id "relay_error"
          "manual_drive requires at least one target" now)])
    ∧ handleSetLed gw rm (.obj [("targets", .arr ts)]) request_id sid now =
        .ok (gw, [Send.ui sid (errorEnvelope request_id "relay_error"
          "set_led requires at least one target" now)])
    ∧ handleSetGoal gw
        (.obj [("targets", .arr ts), ("goal", .obj [("x", .num 1), ("y", .num 2)])])
        request_id sid now =
        .ok (gw, [Send.ui sid (errorEnvelope request_id "invalid_payload"
          "GoalRequest.targets must not be empty" now)]) := by
  have hempty : ts.isEmpty = false := by
    cases ts with
    | nil => exact absurd rfl hne
    | cons a b => rfl
  refine ⟨stringEntries_filter_isStr, ?_, ?_, ?_⟩
  · show (match sendManualDrive rm (stringEntries ts) 0 0 with
      | (true, _, sent) =>
        Except.ok (gw, sent.map Send.relay ++ [Send.ui sid (ackEnvelope request_id none now)])
      | (false, err, sent) =>
        Except.ok (gw, sent.map Send.relay ++
          [Send.ui sid (errorEnvelope request_id "relay_error" (err.getD "") now)])) = _
    rw [hnostr]
    rfl
  · show (match sendLedCommand rm (stringEntries ts) 0 0 0 with
      | (false, err, sent) =>
        Except.ok (gw, sent.map Send.relay ++
          [Send.ui sid (errorEnvelope request_id "relay_error" (err.getD "") now)])
      | (true, _, sent) =>
        let updates := (stringEntries ts).map fun cube =>
          { cube_id := cube, timestamp := now,
            led := some { r := 0, g := 0, b := 0 } : CubeUpdate }
        let result := applyUpdates gw.registry updates
        let gw' := { gw with registry := result.1 }
        let pubs := if result.2.isEmpty then [] else publishCubeUpdates gw' result.2 now
        Except.ok (gw', sent.map Send.relay ++ pubs ++
          [Send.ui sid (ackEnvelope request_id none now)])) = _
    rw [hnostr]
    rfl
  · show (if ts.isEmpty = true then
        Except.ok (gw, [Send.ui sid (errorEnvelope request_id "invalid_payload"
          "set_goal.targets must be non-empty array" now)])
      else _) = _
    rw [hempty]
    show (match assignGoal gw.orch
        { targets := stringEntries ts, pose := { x := 1, y := 2, angle := none },
          priority := 0, keep_history := false } now with
      | (orch', .error msg) =>
        Except.ok ({ gw with orch := orch' },
          [Send.ui sid (errorEnvelope request_id "invalid_payload" msg now)])
      | (orch', .ok goal_id) => _) = _
    rw [hnostr]
    rfl

/-- Witness for C10 with targets `[1, true]`: manual_drive answers
relay_error, set_goal answers invalid_payload. -/
theorem C10_nonstring_targets_skipped_witness :
    handleManualDrive {} rmA01 (.obj [("targets", .arr [.num 1, .b true])]) "q" 3 50 =
      .ok ({}, [Send.ui 3 (errorEnvelope "q" "relay_error"
        "manual_drive requires at least one target" 50)])
    ∧ handleSetLed {} rmA01 (.obj [("targets", .arr [.num 1, .b true])]) "q" 3 50 =
      .ok ({}, [Send.ui 3 (errorEnvelope "q" "relay_error"
        "set_led requires at least one target" 50)])
    ∧ handleSetGoal {}
        (.obj [("targets", .arr [.num 1, .b true]), ("goal", .obj [("x", .num 1), ("y", .num 2)])])
        "q" 3 50 =
      .ok ({}, [Send.ui 3 (errorEnvelope "q" "invalid_payload"
        "GoalRequest.targets must not be empty" 50)]) := by
  have h := C10_nonstring_targets_skipped {} rmA01 [.num 1, .b true] "q" 3 50 (by simp) rfl
  exact ⟨h.2.1, h.2.2.1, h.2.2.2⟩

/-! ## Claim C6 -/

/-- The behaviour claim C6 asserts for a post-handshake error: close the
socket, emit a status event, and unless stopping arm the reconnect timer. -/
def reconnectBehaviour (c : ConnState) (res : ConnState × List ConnAction) : Prop :=
  ConnAction.closeSocket ∈ res.2
  ∧ (∃ st m, ConnAction.status st m ∈ res.2)
  ∧ (c.stopping = false → res.1.timerArmed = true ∧ ConnAction.armTimer ∈ res.2)
  ∧ (c.stopping = true → ConnAction.armTimer ∉ res.2)

/-- A connected, non-stopping connection. -/
def connConnected : ConnState :=
  { state := .Connected, stopping := false, timerArmed := false, socketOpen := true }

/-- C6 counterexample: a read completing with `websocket::error::closed`
(the remote closed the socket) on a connected, non-stopping connection does
not close the raw socket, does not arm the reconnect timer, and does not
retry — it only emits the "closed by remote" status, refuting the claim for
that error. -/
theorem C6_counterexample_remote_close :
    ¬ reconnectBehaviour connConnected (connOnReadError connConnected .remoteClosed) := by
  intro h
  have h1 := h.1
  simp [connOnReadError, connConnected] at h1

/-- C6 amended: every post-handshake error other than a clean remote close —
read errors, write errors, handshake errors, all routed through `fail` —
closes the socket, emits a status event, and, when not stopping, arms the
reconnect timer (and never arms it when stopping); the timer firing on a
non-stopping connection re-enters the connect sequence.  A clean remote
close instead only emits a "closed by remote" status, leaving the state,
socket and timer untouched. -/
theorem C6_reconnect_after_error (c : ConnState) (whereS : String) :
    reconnectBehaviour c (connFail c whereS)
    ∧ connOnReadError c .otherError = connFail c "read"
    ∧ connOnWriteError c = connFail c "write"
    ∧ connHandleHandshake c false = connFail c "handshake"
    ∧ (c.stopping = false → connOnTimer c false = connDoConnect { c with timerArmed := false })
    ∧ connOnReadError c .remoteClosed =
        (c, [ConnAction.status .Stopped "closed by remote"]) := by
  refine ⟨?_, rfl, rfl, rfl, ?_, rfl⟩
  · by_cases hst : c.stopping = true
    · refine ⟨?_, ⟨.Stopped, whereS ++ " error", ?_⟩, ?_, ?_⟩
      · simp [connFail, hst]
      · simp [connFail, hst]
      · intro hf
        rw [hst] at hf
        cases hf
      · intro _
        simp [connFail, hst]
    · have hst' : c.stopping = false := by
        cases hv : c.stopping
        · rfl
        · exact absurd hv hst
      refine ⟨?_, ⟨.Stopped, whereS ++ " error", ?_⟩, ?_, ?_⟩
      · simp [connFail, hst']
      · simp [connFail, hst']
      · intro _
        constructor
        · simp [connFail, hst']
        · simp [connFail, hst']
      · intro hf
        rw [hst'] at hf
        cases hf
  · intro hst
    simp [connOnTimer, hst]

/-- Witness for C6 amended at the connected non-stopping fixture. -/
theorem C6_reconnect_after_error_witness :
    reconnectBehaviour connConnected (connFail connConnected "read")
    ∧ connOnTimer connConnected false =
        connDoConnect { connConnected with timerArmed := false } := by
  have h := C6_reconnect_after_error connConnected "read"
  exact ⟨h.1, h.2.2.2.2.1 rfl⟩

/-! ## Claim C2 -/

/-- Any cube_update envelope enqueued to session `sid` is exactly the
envelope over that session's sub-batch, which is non-empty. -/
theorem mem_publishCubeUpdates {gw : GatewayState} {updates : List CubeState} {ts : Int}
    {sid : SessionId} {env : Json}
    (h : Send.ui sid env ∈ publishCubeUpdates gw updates ts) :
    streamEnabled gw sid "cube_update" = true
    ∧ sessionBatch gw sid updates ≠ []
    ∧ env = envelope "cube_update" ts (.obj [("updates", .arr (sessionBatch gw sid updates))]) := by
  unfold publishCubeUpdates at h
  by_cases hu : updates.isEmpty
  · rw [if_pos hu] at h
    cases h
  · rw [if_neg hu, List.mem_flatMap] at h
    obtain ⟨entry, _, hin⟩ := h
    by_cases hs : streamEnabled gw entry.1 "cube_update" = true
    · rw [if_neg (by simp [hs])] at hin
      by_cases hb : (sessionBatch gw entry.1 updates).isEmpty
      · rw [if_pos hb] at hin
        cases hin
      · rw [if_neg hb] at hin
        rw [List.mem_singleton] at hin
        injection hin with hsid henv
        subst hsid
        refine ⟨hs, ?_, henv⟩
        intro hnil
        rw [hnil] at hb
        exact hb rfl
    · rw [if_pos (by simp [hs])] at hin
      cases hin

/-- C2: with a session's subscription looked up, (a) every cube_update
envelope sent to it carries exactly its non-empty sub-batch; (b) with a
non-empty cube_filter F the sub-batch admits only cubes in F; (c) an empty
sub-batch means no envelope at all; (d) an empty filter admits the whole
update batch. -/
theorem C2_cube_filter_respected (gw : GatewayState) (updates : List CubeState) (ts : Int)
    (sid : SessionId) (sub : Subscription)
    (hsub : alookup sid gw.subscriptions = some sub) :
    (∀ env, Send.ui sid env ∈ publishCubeUpdates gw updates ts →
      env = envelope "cube_update" ts (.obj [("updates", .arr (sessionBatch gw sid updates))])
      ∧ sessionBatch gw sid updates ≠ [])
    ∧ (sub.cube_filter ≠ [] → ∀ st ∈ updates,
        cubeAllowed gw sid st.cube_id = true → st.cube_id ∈ sub.cube_filter)
    ∧ (sessionBatch gw sid updates = [] →
        ∀ env, Send.ui sid env ∉ publishCubeUpdates gw updates ts)
    ∧ (sub.cube_filter = [] → sessionBatch gw sid updates = updates.map cubeStateToJson) := by
  refine ⟨?_, ?_, ?_, ?_⟩
  · intro env hmem
    have h := mem_publishCubeUpdates hmem
    exact ⟨h.2.2, h.2.1⟩
  · intro hF st _ hallowed
    unfold cubeAllowed at hallowed
    rw [hsub] at hallowed
    have hallowed' : (sub.cube_filter.isEmpty || decide (st.cube_id ∈ sub.cube_filter)) = true :=
      hallowed
    have hFempty : sub.cube_filter.isEmpty = false := by
      cases hv : sub.cube_filter with
      | nil => exact absurd hv hF
      | cons a b => rfl
    rw [hFempty, Bool.false_or] at hallowed'
    exact of_decide_eq_true hallowed'
  · intro hb env hmem
    have h := mem_publishCubeUpdates hmem
    exact h.2.1 hb
  · intro hF
    unfold sessionBatch
    have hall : updates.filter (fun st => cubeAllowed gw sid st.cube_id) = updates := by
      rw [List.filter_eq_self]
      intro st _
      unfold cubeAllowed
      rw [hsub]
      show (sub.cube_filter.isEmpty || decide (st.cube_id ∈ sub.cube_filter)) = true
      rw [hF]
      rfl
    rw [hall]

/-- Two-cube fixture states for the C2 witness. -/
def stA01 : CubeState := { cube_id := "A01", relay_id := "r1" }

def stA02 : CubeState := { cube_id := "A02", relay_id := "r1" }

/-- A gateway with session 1 unfiltered and session 2 filtered to A02. -/
def gwTwoSessions : GatewayState :=
  { subscriptions :=
      [(1, { streams := kDefaultStreams, cube_filter := [] }),
       (2, { streams := kDefaultStreams, cube_filter := ["A02"] })] }

/-- Witness for C2: the unfiltered session's sub-batch is the whole batch;
the filtered session receives nothing when its sub-batch is empty. -/
theorem C2_cube_filter_respected_witness :
    sessionBatch gwTwoSessions 1 [stA01, stA02] = [cubeStateToJson stA01, cubeStateToJson stA02]
    ∧ (∀ env, Send.ui 2 env ∉ publishCubeUpdates gwTwoSessions [stA01] 9)
    ∧ ("A02" ∈ (["A02"] : List String)) := by
  have h1 := C2_cube_filter_respected gwTwoSessions [stA01, stA02] 9 1
    { streams := kDefaultStreams, cube_filter := [] } rfl
  have h2 := C2_cube_filter_respected gwTwoSessions [stA01] 9 2
    { streams := kDefaultStreams, cube_filter := ["A02"] } rfl
  have h3 := C2_cube_filter_respected gwTwoSessions [stA02] 9 2
    { streams := kDefaultStreams, cube_filter := ["A02"] } rfl
  refine ⟨?_, ?_, ?_⟩
  · have := h1.2.2.2 rfl
    rw [this]
    rfl
  · exact h2.2.2.1 rfl
  · exact h3.2.1 (by simp) stA02 (by simp) rfl

/-! ## Claim C5 -/

theorem mem_insertId {x y : SessionId} {xs : List SessionId} :
    y ∈ insertId x xs ↔ y ∈ xs ∨ y = x := by
  unfold insertId
  by_cases h : x ∈ xs
  · rw [if_pos h]
    constructor
    · exact fun hy => Or.inl hy
    · rintro (hy | rfl)
      · exact hy
      · exact h
  · rw [if_neg h]
    simp

theorem nodup_insertId {x : SessionId} {xs : List SessionId} (h : xs.Nodup) :
    (insertId x xs).Nodup := by
  unfold insertId
  by_cases hx : x ∈ xs
  · rw [if_pos hx]
    exact h
  · rw [if_neg hx]
    refine List.Nodup.append h (List.nodup_singleton x) ?_
    intro a ha hax
    rw [List.mem_singleton] at hax
    exact hx (hax ▸ ha)

theorem mem_removeId_of_ne {x y : SessionId} {xs : List SessionId} (hne : y ≠ x) :
    y ∈ removeId x xs ↔ y ∈ xs := by
  induction xs with
  | nil => simp [removeId]
  | cons z rest ih =>
    unfold removeId
    by_cases hz : z = x
    · rw [if_pos hz]
      subst hz
      simp only [List.mem_cons]
      constructor
      · exact fun hy => Or.inr hy
      · rintro (rfl | hy)
        · exact absurd rfl hne
        · exact hy
    · rw [if_neg hz]
      simp only [List.mem_cons, ih]

theorem not_mem_removeId_self {x : SessionId} {xs : List SessionId} (hnd : xs.Nodup) :
    x ∉ removeId x xs := by
  induction xs with
  | nil => simp [removeId]
  | cons z rest ih =>
    unfold removeId
    rw [List.nodup_cons] at hnd
    by_cases hz : z = x
    · rw [if_pos hz]
      subst hz
      exact hnd.1
    · rw [if_neg hz]
      intro hmem
      rw [List.mem_cons] at hmem
      rcases hmem with h1 | h2
      · exact hz h1.symm
      · exact ih hnd.2 h2

theorem nodup_removeId {x : SessionId} {xs : List SessionId} (hnd : xs.Nodup) :
    (removeId x xs).Nodup := by
  induction xs with
  | nil => exact hnd
  | cons z rest ih =>
    unfold removeId
    rw [List.nodup_cons] at hnd
    by_cases hz : z = x
    · rw [if_pos hz]
      exact hnd.2
    · rw [if_neg hz]
      rw [List.nodup_cons]
      refine ⟨?_, ih hnd.2⟩
      intro hmem
      by_cases hzx : z = x
      · exact hz hzx
      · rw [mem_removeId_of_ne hzx] at hmem
        exact hnd.1 hmem

/-- The inductive invariant of the session lifecycle without `stop`: a
session between open and close sits in both tables, live table entries are
unclosed, and the table has no duplicate ids. -/
def serverInv (s : ServerState) : Prop :=
  (∀ sid, sid ∈ s.opened → sid ∉ s.closed → sid ∈ s.wsSessions ∧ sid ∈ s.subs)
  ∧ (∀ sid, sid ∈ s.wsSessions → sid ∉ s.closed)
  ∧ s.wsSessions.Nodup

theorem serverInv_step {s : ServerState} {e : ServerEvent}
    (he : serverEnabled s e = true) (hns : e ≠ .stop) (hI : serverInv s) :
    serverInv (serverStep s e) := by
  obtain ⟨h1, h2, h3⟩ := hI
  cases e with
  | accept sid =>
    simp only [serverEnabled, Bool.and_eq_true, decide_eq_true_eq] at he
    refine ⟨?_, ?_, ?_⟩
    · intro sid' ho hc
      obtain ⟨hw, hs⟩ := h1 sid' ho hc
      exact ⟨mem_insertId.mpr (Or.inl hw), hs⟩
    · intro sid' hw
      rcases mem_insertId.mp hw with hmem | rfl
      · exact h2 sid' hmem
      · exact he.2
    · exact nodup_insertId h3
  | handshakeOk sid =>
    simp only [serverEnabled, Bool.and_eq_true, decide_eq_true_eq] at he
    refine ⟨?_, ?_, h3⟩
    · intro sid' ho hc
      rcases mem_insertId.mp ho with hmem | rfl
      · obtain ⟨hw, hs⟩ := h1 sid' hmem hc
        exact ⟨hw, mem_insertId.mpr (Or.inl hs)⟩
      · exact ⟨he.1.1, mem_insertId.mpr (Or.inr rfl)⟩
    · exact h2
  | sessionClosed sid =>
    simp only [serverEnabled, Bool.and_eq_true, decide_eq_true_eq] at he
    refine ⟨?_, ?_, nodup_removeId h3⟩
    · intro sid' ho hc
      have hne : sid' ≠ sid := by
        intro hrfl
        exact hc (mem_insertId.mpr (Or.inr hrfl))
      have hc' : sid' ∉ s.closed := fun hmem => hc (mem_insertId.mpr (Or.inl hmem))
      obtain ⟨hw, hs⟩ := h1 sid' ho hc'
      exact ⟨(mem_removeId_of_ne hne).mpr hw, (mem_removeId_of_ne hne).mpr hs⟩
    · intro sid' hw hc
      have hw' : sid' ∈ removeId sid s.wsSessions := hw
      have hc' : sid' ∈ insertId sid s.closed := hc
      by_cases hne : sid' = sid
      · subst hne
        exact not_mem_removeId_self h3 hw'
      · rw [mem_removeId_of_ne hne] at hw'
        rcases mem_insertId.mp hc' with hmem | hrfl
        · exact h2 sid' hw' hmem
        · exact hne hrfl
  | stop => exact absurd rfl hns

theorem serverInv_run (tr : List ServerEvent) :
    ∀ s, serverInv s → validTrace s tr = true → (∀ e ∈ tr, e ≠ .stop) →
      serverInv (serverRun s tr) := by
  induction tr with
  | nil => exact fun s hI _ _ => hI
  | cons e rest ih =>
    intro s hI hv hns
    rw [show validTrace s (e :: rest) = (serverEnabled s e && validTrace (serverStep s e) rest)
      from rfl, Bool.and_eq_true] at hv
    exact ih (serverStep s e)
      (serverInv_step hv.1 (hns e (List.mem_cons_self e rest)) hI) hv.2
      (fun e' he' => hns e' (List.mem_cons_of_mem e he'))

theorem traceHasStop_false_no_stop {tr : List ServerEvent} (h : traceHasStop tr = false) :
    ∀ e ∈ tr, e ≠ .stop := by
  induction tr with
  | nil => intro e he; cases he
  | cons e' rest ih =>
    intro e he
    cases e' with
    | stop => cases h
    | accept sid =>
      rcases List.mem_cons.mp he with rfl | hmem
      · intro hcontra; cases hcontra
      · exact ih h e hmem
    | handshakeOk sid =>
      rcases List.mem_cons.mp he with rfl | hmem
      · intro hcontra; cases hcontra
      · exact ih h e hmem
    | sessionClosed sid =>
      rcases List.mem_cons.mp he with rfl | hmem
      · intro hcontra; cases hcontra
      · exact ih h e hmem

/-- C5 counterexample: the trace accept(1), handshake(1), stop() is a valid
lifecycle; afterwards session 1 has been opened and never closed, its gateway
subscription is still installed, yet it is gone from the WsServer table —
`stop()` clears `sessions_` without invoking close handlers, refuting the
claimed two-way containment "at every point from open until close". -/
theorem C5_counterexample_stop :
    validTrace {} [.accept 1, .handshakeOk 1, .stop] = true
    ∧ 1 ∈ (serverRun {} [.accept 1, .handshakeOk 1, .stop]).opened
    ∧ 1 ∉ (serverRun {} [.accept 1, .handshakeOk 1, .stop]).closed
    ∧ 1 ∈ (serverRun {} [.accept 1, .handshakeOk 1, .stop]).subs
    ∧ 1 ∉ (serverRun {} [.accept 1, .handshakeOk 1, .stop]).wsSessions := by
  refine ⟨rfl, ?_, ?_, ?_, ?_⟩ <;> decide

/-- C5 amended: as long as `stop()` has not run, a session id is in the
WsServer table iff it is in the gateway subscription table, at every point
from its open callback until its close callback.  (`stop()` breaks the
equivalence by clearing only the WsServer side; each stranded subscription
is dropped later when that session's socket errors out.) -/
theorem C5_tables_agree_without_stop (tr : List ServerEvent)
    (hvalid : validTrace {} tr = true) (hnostop : traceHasStop tr = false) :
    ∀ sid, sid ∈ (serverRun {} tr).opened → sid ∉ (serverRun {} tr).closed →
      (sid ∈ (serverRun {} tr).wsSessions ↔ sid ∈ (serverRun {} tr).subs) := by
  have hinv : serverInv (serverRun {} tr) := by
    refine serverInv_run tr {} ?_ hvalid (traceHasStop_false_no_stop hnostop)
    refine ⟨?_, ?_, List.nodup_nil⟩
    · intro sid ho
      cases ho
    · intro sid hw
      cases hw
  intro sid ho hc
  obtain ⟨hw, hs⟩ := hinv.1 sid ho hc
  exact ⟨fun _ => hs, fun _ => hw⟩

/-- Witness for C5 amended on the stop-free trace accept(1), handshake(1),
close(1), accept(2), handshake(2). -/
theorem C5_tables_agree_without_stop_witness :
    2 ∈ (serverRun {} [.accept 1, .handshakeOk 1, .sessionClosed 1,
          .accept 2, .handshakeOk 2]).wsSessions
    ↔ 2 ∈ (serverRun {} [.accept 1, .handshakeOk 1, .sessionClosed 1,
          .accept 2, .handshakeOk 2]).subs := by
  exact C5_tables_agree_without_stop
    [.accept 1, .handshakeOk 1, .sessionClosed 1, .accept 2, .handshakeOk 2]
    (by decide) (by decide) 2 (by decide) (by decide)

/-! ## Claim C8 -/

theorem isEmpty_iff_nil {α : Type} {l : List α} : l.isEmpty = true ↔ l = [] := by
  cases l <;> simp

theorem uiTo_nil {sid : SessionId} : uiTo sid [] = [] := rfl

theorem uiTo_cons_self {sid : SessionId} {m : Json} {rest : List Send} :
    uiTo sid (Send.ui sid m :: rest) = m :: uiTo sid rest := by
  show (if sid = sid then m :: uiTo sid rest else uiTo sid rest) = _
  rw [if_pos rfl]

/-- The envelope types handle_subscribe's reply carries to the issuing
session: ack, then field_info, then the optional history snapshot. -/
theorem subscribeResult_uiTo_types (gw : GatewayState) (payload : Json)
    (request_id : String) (sid : SessionId) (ts : Int) (ih : Bool) :
    (uiTo sid (subscribeResult gw payload request_id sid ts ih).2).map envType =
      ["ack", "field_info"] ++ (if ih then ["snapshot"] else []) := by
  cases ih with
  | false =>
    show (uiTo sid [Send.ui sid (ackEnvelope request_id none ts),
      Send.ui sid (fieldInfoEnvelope
        (subscribeResult gw payload request_id sid ts false).1 ts)]).map envType = _
    rw [uiTo_cons_self, uiTo_cons_self, uiTo_nil]
    rfl
  | true =>
    show (uiTo sid [Send.ui sid (ackEnvelope request_id none ts),
      Send.ui sid (fieldInfoEnvelope
        (subscribeResult gw payload request_id sid ts true).1 ts),
      Send.ui sid (snapshotEnvelope
        (subscribeResult gw payload request_id sid ts true).1 true ts)]).map envType = _
    rw [uiTo_cons_self, uiTo_cons_self, uiTo_cons_self, uiTo_nil]
    rfl

theorem uiTo_cons_relay {sid : SessionId} {m : Json} {rest : List Send} :
    uiTo sid (Send.relay m :: rest) = uiTo sid rest := rfl

theorem uiTo_append {sid : SessionId} {l1 l2 : List Send} :
    uiTo sid (l1 ++ l2) = uiTo sid l1 ++ uiTo sid l2 := by
  induction l1 with
  | nil => rfl
  | cons s rest ih =>
    cases s with
    | ui s' m =>
      show (if s' = sid then m :: uiTo sid (rest ++ l2) else uiTo sid (rest ++ l2)) =
        (if s' = sid then m :: uiTo sid rest else uiTo sid rest) ++ uiTo sid l2
      by_cases hs : s' = sid
      · rw [if_pos hs, if_pos hs, ih, List.cons_append]
      · rw [if_neg hs, if_neg hs, ih]
    | relay m =>
      rw [List.cons_append, uiTo_cons_relay, uiTo_cons_relay, ih]

/-- A gateway whose session 5 already holds a narrow subscription. -/
def gwLogOnly : GatewayState :=
  { subscriptions := [(5, { streams := ["log"], cube_filter := ["XXX"] })] }

/-- C8 counterexample: a subscribe whose `include_history` is the number 1
makes `payload.value("include_history", false)` throw before the
subscription is replaced, so nothing is sent — in particular no field_info —
and the old subscription stays, refuting "the subscription is replaced … a
field_info event is always sent". -/
theorem C8_counterexample_include_history :
    runHandler gwLogOnly
      (handleSubscribe gwLogOnly (.obj [("include_history", .num 1)]) "r7" 5 0) =
      (gwLogOnly, [])
    ∧ alookup 5 (runHandler gwLogOnly
        (handleSubscribe gwLogOnly (.obj [("include_history", .num 1)]) "r7" 5 0)).1.subscriptions =
      some { streams := ["log"], cube_filter := ["XXX"] } := by
  exact ⟨rfl, rfl⟩

/-- C8 amended: provided the subscribe payload is a JSON object whose
`include_history`, when present, is boolean, the handler succeeds and (a)
replaces the session's subscription, (b) installs as stream set the string
entries of a present `streams` array, or the default set {relay_status,
cube_update, fleet_state, log} when `streams` is absent, not an array, or
yields no strings, (c) installs as cube filter exactly the string entries of
a present `cube_filter` array (empty otherwise), (d) enqueues an ack and then
a field_info to that session, followed by a snapshot iff `include_history`
is true. -/
theorem C8_subscribe_replaces_subscription (gw : GatewayState) (payload : Json)
    (request_id : String) (sid : SessionId) (ts : Int)
    (hobj : payload.isObj = true)
    (hinc : ∀ v, payload.find "include_history" = some v → ∃ bv, v = Json.b bv) :
    ∃ st' sends includeHistory,
      handleSubscribe gw payload request_id sid ts = .ok (st', sends)
      ∧ payload.valueBool "include_history" false = .ok includeHistory
      ∧ st'.subscriptions = aput sid
          { streams := subscribeStreams payload, cube_filter := subscribeCubeFilter payload }
          gw.subscriptions
      ∧ (∀ x, x ∈ subscribeStreams payload ↔
          (match payload.find "streams" with
           | some (.arr entries) =>
             if stringEntries entries = [] then x ∈ kDefaultStreams
             else x ∈ stringEntries entries
           | _ => x ∈ kDefaultStreams))
      ∧ (∀ x, x ∈ subscribeCubeFilter payload ↔
          (match payload.find "cube_filter" with
           | some (.arr entries) => x ∈ stringEntries entries
           | _ => False))
      ∧ (uiTo sid sends).map envType =
          ["ack", "field_info"] ++ (if includeHistory then ["snapshot"] else []) := by
  obtain ⟨ih, hvb⟩ : ∃ ih, payload.valueBool "include_history" false = .ok ih := by
    cases payload with
    | obj fields =>
      cases hfind : (Json.obj fields).find "include_history" with
      | none =>
        refine ⟨false, ?_⟩
        unfold Json.valueBool
        rw [hfind]
      | some v =>
        obtain ⟨bv, rfl⟩ := hinc v hfind
        refine ⟨bv, ?_⟩
        unfold Json.valueBool
        rw [hfind]
    | null => cases hobj
    | b v => cases hobj
    | num n => cases hobj
    | str s => cases hobj
    | arr xs => cases hobj
  refine ⟨(subscribeResult gw payload request_id sid ts ih).1,
    (subscribeResult gw payload request_id sid ts ih).2, ih, ?_, hvb, rfl, ?_, ?_, ?_⟩
  · show (payload.valueBool "include_history" false).bind
      (fun includeHistory =>
        Except.ok (subscribeResult gw payload request_id sid ts includeHistory)) = _
    rw [hvb]
    rfl
  · intro x
    unfold subscribeStreams
    cases hfind : payload.find "streams" with
    | none => rfl
    | some v =>
      cases v with
      | arr entries =>
        show (x ∈ (if (setInsertAll [] entries).isEmpty = true then kDefaultStreams
                   else setInsertAll [] entries)) ↔
          (if stringEntries entries = [] then x ∈ kDefaultStreams
           else x ∈ stringEntries entries)
        by_cases hse : stringEntries entries = []
        · rw [if_pos hse, setInsertAll_nil_eq_nil_iff.mpr hse]
          simp
        · have hcoll : (setInsertAll [] entries).isEmpty = false := by
            cases hv : (setInsertAll [] entries).isEmpty
            · rfl
            · exact absurd (setInsertAll_nil_eq_nil_iff.mp (isEmpty_iff_nil.mp hv)) hse
          rw [hcoll, if_neg hse]
          simp only [Bool.false_eq_true, if_false]
          rw [mem_setInsertAll]
          simp
      | null => rfl
      | b bv => rfl
      | num n => rfl
      | str s => rfl
      | obj fs => rfl
  · intro x
    unfold subscribeCubeFilter
    cases hfind : payload.find "cube_filter" with
    | none => simp
    | some v =>
      cases v with
      | arr entries =>
        show x ∈ setInsertAll [] entries ↔ x ∈ stringEntries entries
        rw [mem_setInsertAll]
        simp
      | null => simp
      | b bv => simp
      | num n => simp
      | str s => simp
      | obj fs => simp
  · exact subscribeResult_uiTo_types gw payload request_id sid ts ih

/-- Witness for C8 amended: a subscribe installing streams ["log", 7] and
cube_filter ["A01"] with include_history true. -/
theorem C8_subscribe_replaces_subscription_witness :
    ∃ st' sends includeHistory,
      handleSubscribe gwLogOnly
        (.obj [("streams", .arr [.str "log", .num 7]), ("cube_filter", .arr [.str "A01"]),
               ("include_history", .b true)]) "r8" 5 11 = .ok (st', sends)
      ∧ Json.valueBool (.obj [("streams", .arr [.str "log", .num 7]),
          ("cube_filter", .arr [.str "A01"]), ("include_history", .b true)])
          "include_history" false = .ok includeHistory
      ∧ st'.subscriptions = aput 5
          { streams := subscribeStreams (.obj [("streams", .arr [.str "log", .num 7]),
              ("cube_filter", .arr [.str "A01"]), ("include_history", .b true)]),
            cube_filter := subscribeCubeFilter (.obj [("streams", .arr [.str "log", .num 7]),
              ("cube_filter", .arr [.str "A01"]), ("include_history", .b true)]) }
          gwLogOnly.subscriptions
      ∧ (∀ x, x ∈ subscribeStreams (.obj [("streams", .arr [.str "log", .num 7]),
            ("cube_filter", .arr [.str "A01"]), ("include_history", .b true)]) ↔
          (match Json.find (.obj [("streams", .arr [.str "log", .num 7]),
              ("cube_filter", .arr [.str "A01"]), ("include_history", .b true)]) "streams" with
           | some (.arr entries) =>
             if stringEntries entries = [] then x ∈ kDefaultStreams
             else x ∈ stringEntries entries
           | _ => x ∈ kDefaultStreams))
      ∧ (∀ x, x ∈ subscribeCubeFilter (.obj [("streams", .arr [.str "log", .num 7]),
            ("cube_filter", .arr [.str "A01"]), ("include_history", .b true)]) ↔
          (match Json.find (.obj [("streams", .arr [.str "log", .num 7]),
              ("cube_filter", .arr [.str "A01"]), ("include_history", .b true)]) "cube_filter" with
           | some (.arr entries) => x ∈ stringEntries entries
           | _ => False))
      ∧ (uiTo 5 sends).map envType =
          ["ack", "field_info"] ++ (if includeHistory then ["snapshot"] else []) := by
  exact C8_subscribe_replaces_subscription gwLogOnly
    (.obj [("streams", .arr [.str "log", .num 7]), ("cube_filter", .arr [.str "A01"]),
           ("include_history", .b true)]) "r8" 5 11 rfl
    (by
      intro v hv
      refine ⟨true, ?_⟩
      have hv' : some (Json.b true) = some v := by
        rw [← hv]
        rfl
      injection hv' with h
      exact h.symm)

/-! ## Claim C1 -/

theorem envType_envelope (t : String) (ts : Int) (p : Json) :
    envType (envelope t ts p) = t := rfl

theorem except_bind_ok {α β ε : Type} (a : α) (f : α → Except ε β) :
    (Except.ok a >>= f : Except ε β) = f a := rfl

theorem mem_uiTo {sid : SessionId} {env : Json} {sends : List Send} :
    env ∈ uiTo sid sends ↔ Send.ui sid env ∈ sends := by
  induction sends with
  | nil => simp [uiTo]
  | cons s rest ih =>
    cases s with
    | ui s' m =>
      show env ∈ (if s' = sid then m :: uiTo sid rest else uiTo sid rest) ↔ _
      by_cases hs : s' = sid
      · subst hs
        rw [if_pos rfl]
        simp [List.mem_cons, ih, Send.ui.injEq]
      · rw [if_neg hs, ih]
        simp only [List.mem_cons, Send.ui.injEq]
        constructor
        · exact fun hmem => Or.inr hmem
        · rintro (⟨h1, _⟩ | hmem)
          · exact absurd h1.symm hs
          · exact hmem
    | relay m =>
      rw [uiTo_cons_relay, ih]
      simp

theorem uiTo_relayMap {sid : SessionId} {msgs : List Json} :
    uiTo sid (msgs.map Send.relay) = [] := by
  induction msgs with
  | nil => rfl
  | cons m rest ih =>
    rw [List.map_cons, uiTo_cons_relay, ih]

theorem mem_publishFleetState {gw : GatewayState} {ts : Int} {sid : SessionId} {env : Json}
    (h : Send.ui sid env ∈ publishFleetState gw ts) : env = fleetEnvelope gw ts := by
  unfold publishFleetState at h
  rw [List.mem_flatMap] at h
  obtain ⟨entry, _, hin⟩ := h
  by_cases hs : streamEnabled gw entry.1 "fleet_state" = true
  · rw [if_pos hs, List.mem_singleton] at hin
    exact (Send.ui.inj hin).2
  · rw [if_neg hs] at hin
    cases hin

/-- Every cube_update / fleet_state envelope a gateway publish enqueues to a
session is event-typed. -/
theorem isEvent_of_mem_pubs {gw : GatewayState} {changed : List CubeState} {ts : Int}
    {sid : SessionId} {e : Json}
    (he : e ∈ uiTo sid (if changed.isEmpty = true then []
      else publishCubeUpdates gw changed ts)) : isEventEnv e = true := by
  by_cases hc : changed.isEmpty = true
  · rw [if_pos hc] at he
    cases he
  · rw [if_neg hc] at he
    have hmem := mem_uiTo.mp he
    have := (mem_publishCubeUpdates hmem).2.2
    rw [this]
    rfl

theorem isEvent_of_mem_fleet {gw : GatewayState} {ts : Int} {sid : SessionId} {e : Json}
    (he : e ∈ uiTo sid (publishFleetState gw ts)) : isEventEnv e = true := by
  have hmem := mem_uiTo.mp he
  rw [mem_publishFleetState hmem]
  rfl

theorem setLed_events_then_ack {gw : GatewayState} {rm : RelayManagerState} {payload : Json}
    {request_id : String} {sid : SessionId} {ts : Int} {st' : GatewayState} {sends : List Send}
    (heq : handleSetLed gw rm payload request_id sid ts = .ok (st', sends)) :
    ∃ evs last, uiTo sid sends = evs ++ [last] ∧ isAckErrEnv last = true
      ∧ ∀ e ∈ evs, isEventEnv e = true := by
  unfold handleSetLed at heq
  split at heq
  case h_2 =>
    injection heq with hpair
    obtain ⟨_, h2⟩ := Prod.mk.inj hpair
    subst h2
    refine ⟨[], errorEnvelope request_id "invalid_payload" "set_led.targets must be array" ts,
      ?_, rfl, ?_⟩
    · rw [uiTo_cons_self]
      rfl
    · intro e he
      cases he
  case h_1 =>
    rename_i entries hfind
    cases hcolor : payload.valueJson "color" (.obj []) with
    | error ce =>
      rw [hcolor] at heq
      exact Except.noConfusion heq
    | ok color =>
      rw [hcolor] at heq
      simp only [except_bind_ok] at heq
      cases color with
      | obj cf =>
        cases hr : (Json.obj cf).valueInt "r" 0 with
        | error re =>
          rw [hr] at heq
          exact Except.noConfusion heq
        | ok r =>
          rw [hr] at heq
          simp only [except_bind_ok] at heq
          cases hg : (Json.obj cf).valueInt "g" 0 with
          | error ge =>
            rw [hg] at heq
            exact Except.noConfusion heq
          | ok g =>
            rw [hg] at heq
            simp only [except_bind_ok] at heq
            cases hb : (Json.obj cf).valueInt "b" 0 with
            | error be =>
              rw [hb] at heq
              exact Except.noConfusion heq
            | ok b =>
              rw [hb] at heq
              simp only [except_bind_ok] at heq
              rcases hsend : sendLedCommand rm (stringEntries entries) r g b with
                ⟨okFlag, errMsg, sent⟩
              rw [hsend] at heq
              cases okFlag with
              | false =>
                injection heq with hpair
                obtain ⟨_, h2⟩ := Prod.mk.inj hpair
                subst h2
                refine ⟨[], errorEnvelope request_id "relay_error" (errMsg.getD "") ts,
                  ?_, rfl, ?_⟩
                · rw [uiTo_append, uiTo_relayMap, uiTo_cons_self]
                  rfl
                · intro e he
                  cases he
              | true =>
                rcases happ : applyUpdates gw.registry
                    ((stringEntries entries).map fun cube =>
                      { cube_id := cube, timestamp := ts,
                        led := some { r := r, g := g, b := b } : CubeUpdate }) with
                  ⟨reg', changed⟩
                rw [happ] at heq
                injection heq with hpair
                obtain ⟨_, h2⟩ := Prod.mk.inj hpair
                subst h2
                refine ⟨uiTo sid (if changed.isEmpty = true then []
                    else publishCubeUpdates
                      { gw with registry := reg' } changed ts),
                  ackEnvelope request_id none ts, ?_, rfl, ?_⟩
                · rw [uiTo_append, uiTo_append, uiTo_relayMap, uiTo_cons_self]
                  rfl
                · intro e he
                  exact isEvent_of_mem_pubs he
      | null =>
        injection heq with hpair
        obtain ⟨_, h2⟩ := Prod.mk.inj hpair
        subst h2
        refine ⟨[], errorEnvelope request_id "invalid_payload" "color must be object" ts,
          ?_, rfl, ?_⟩
        · rw [uiTo_cons_self]
          rfl
        · intro e he
          cases he
      | b bv =>
        injection heq with hpair
        obtain ⟨_, h2⟩ := Prod.mk.inj hpair
        subst h2
        refine ⟨[], errorEnvelope request_id "invalid_payload" "color must be object" ts,
          ?_, rfl, ?_⟩
        · rw [uiTo_cons_self]
          rfl
        · intro e he
          cases he
      | num n =>
        injection heq with hpair
        obtain ⟨_, h2⟩ := Prod.mk.inj hpair
        subst h2
        refine ⟨[], errorEnvelope request_id "invalid_payload" "color must be object" ts,
          ?_, rfl, ?_⟩
        · rw [uiTo_cons_self]
          rfl
        · intro e he
          cases he
      | str s =>
        injection heq with hpair
        obtain ⟨_, h2⟩ := Prod.mk.inj hpair
        subst h2
        refine ⟨[], errorEnvelope request_id "invalid_payload" "color must be object" ts,
          ?_, rfl, ?_⟩
        · rw [uiTo_cons_self]
          rfl
        · intro e he
          cases he
      | arr xs =>
        injection heq with hpair
        obtain ⟨_, h2⟩ := Prod.mk.inj hpair
        subst h2
        refine ⟨[], errorEnvelope request_id "invalid_payload" "color must be object" ts,
          ?_, rfl, ?_⟩
        · rw [uiTo_cons_self]
          rfl
        · intro e he
          cases he

theorem setGoalPublish_uiTo (gw : GatewayState) (orch' : OrchestratorState) (gid : String)
    (targets : List String) (request_id : String) (sid : SessionId) (ts : Int) :
    ∃ evs, uiTo sid (setGoalPublish gw orch' gid targets request_id sid ts).2 =
        evs ++ [ackEnvelope request_id (some (.obj [("goal_id", .str gid)])) ts]
      ∧ ∀ e ∈ evs, isEventEnv e = true := by
  rcases happ : applyUpdates gw.registry (targets.map fun cube =>
      { cube_id := cube, relay_id := some "", goal_id := some gid,
        timestamp := ts : CubeUpdate }) with ⟨reg', changed⟩
  refine ⟨uiTo sid ((if changed.isEmpty = true then []
      else publishCubeUpdates { gw with orch := orch', registry := reg' } changed ts)
      ++ publishFleetState { gw with orch := orch', registry := reg' } ts), ?_, ?_⟩
  · unfold setGoalPublish
    rw [happ]
    show uiTo sid (((if changed.isEmpty = true then []
        else publishCubeUpdates { gw with orch := orch', registry := reg' } changed ts)
        ++ publishFleetState { gw with orch := orch', registry := reg' } ts)
        ++ [Send.ui sid (ackEnvelope request_id
             (some (.obj [("goal_id", .str gid)])) ts)]) = _
    rw [uiTo_append, uiTo_cons_self]
    rfl
  · intro e he
    rw [uiTo_append, List.mem_append] at he
    rcases he with h1 | h2
    · exact isEvent_of_mem_pubs h1
    · exact isEvent_of_mem_fleet h2

theorem setGoal_events_then_ack {gw : GatewayState} {payload : Json}
    {request_id : String} {sid : SessionId} {ts : Int} {st' : GatewayState} {sends : List Send}
    (heq : handleSetGoal gw payload request_id sid ts = .ok (st', sends)) :
    ∃ evs last, uiTo sid sends = evs ++ [last] ∧ isAckErrEnv last = true
      ∧ ∀ e ∈ evs, isEventEnv e = true := by
  unfold handleSetGoal at heq
  split at heq
  case h_2 =>
    injection heq with hpair
    obtain ⟨_, h2⟩ := Prod.mk.inj hpair
    subst h2
    refine ⟨[], errorEnvelope request_id "invalid_payload"
      "set_goal.targets must be non-empty array" ts, ?_, rfl, ?_⟩
    · rw [uiTo_cons_self]
      rfl
    · intro e he
      cases he
  case h_1 =>
    rename_i entries hfind
    split at heq
    · injection heq with hpair
      obtain ⟨_, h2⟩ := Prod.mk.inj hpair
      subst h2
      refine ⟨[], errorEnvelope request_id "invalid_payload"
        "set_goal.targets must be non-empty array" ts, ?_, rfl, ?_⟩
      · rw [uiTo_cons_self]
        rfl
      · intro e he
        cases he
    · split at heq
      case h_2 =>
        injection heq with hpair
        obtain ⟨_, h2⟩ := Prod.mk.inj hpair
        subst h2
        refine ⟨[], errorEnvelope request_id "invalid_payload" "goal must be object" ts,
          ?_, rfl, ?_⟩
        · rw [uiTo_cons_self]
          rfl
        · intro e he
          cases he
      case h_1 =>
        rename_i goalFields hgoal
        cases hx : (Json.obj goalFields).valueInt "x" 0 with
        | error xe =>
          rw [hx] at heq
          exact Except.noConfusion heq
        | ok x =>
          rw [hx] at heq
          simp only [except_bind_ok] at heq
          cases hy : (Json.obj goalFields).valueInt "y" 0 with
          | error ye =>
            rw [hy] at heq
            exact Except.noConfusion heq
          | ok y =>
            rw [hy] at heq
            simp only [except_bind_ok] at heq
            cases hang : goalAngle (Json.obj goalFields) with
            | error ae =>
              rw [hang] at heq
              exact Except.noConfusion heq
            | ok angle =>
              rw [hang] at heq
              simp only [except_bind_ok] at heq
              cases hpr : payload.valueInt "priority" 0 with
              | error pe =>
                rw [hpr] at heq
                exact Except.noConfusion heq
              | ok priority =>
                rw [hpr] at heq
                simp only [except_bind_ok] at heq
                cases hkh : payload.valueBool "keep_history" false with
                | error ke =>
                  rw [hkh] at heq
                  exact Except.noConfusion heq
                | ok keepHistory =>
                  rw [hkh] at heq
                  simp only [except_bind_ok] at heq
                  rcases hassign : assignGoal gw.orch
                      { targets := stringEntries entries,
                        pose := { x := x, y := y, angle := angle },
                        priority := priority, keep_history := keepHistory } ts with
                    ⟨orch', res⟩
                  rw [hassign] at heq
                  cases res with
                  | error msg =>
                    injection heq with hpair
                    obtain ⟨_, h2⟩ := Prod.mk.inj hpair
                    subst h2
                    refine ⟨[], errorEnvelope request_id "invalid_payload" msg ts,
                      ?_, rfl, ?_⟩
                    · rw [uiTo_cons_self]
                      rfl
                    · intro e he
                      cases he
                  | ok goal_id =>
                    injection heq with hpair
                    obtain ⟨_, h2⟩ := Prod.mk.inj hpair
                    subst h2
                    obtain ⟨evs, hevs, hall⟩ := setGoalPublish_uiTo gw orch' goal_id
                      (stringEntries entries) request_id sid ts
                    exact ⟨evs, ackEnvelope request_id
                      (some (.obj [("goal_id", .str goal_id)])) ts, hevs, rfl, hall⟩

theorem manualDrive_single_reply {gw : GatewayState} {rm : RelayManagerState} {payload : Json}
    {request_id : String} {sid : SessionId} {ts : Int} {st' : GatewayState} {sends : List Send}
    (heq : handleManualDrive gw rm payload request_id sid ts = .ok (st', sends)) :
    ∃ last, uiTo sid sends = [last] ∧ isAckErrEnv last = true := by
  unfold handleManualDrive at heq
  split at heq
  case h_2 =>
    injection heq with hpair
    obtain ⟨_, h2⟩ := Prod.mk.inj hpair
    subst h2
    refine ⟨errorEnvelope request_id "invalid_payload" "manual_drive.targets must be array" ts,
      ?_, rfl⟩
    rw [uiTo_cons_self]
    rfl
  case h_1 =>
    rename_i entries hfind
    cases hleft : payload.valueInt "left" 0 with
    | error le =>
      rw [hleft] at heq
      exact Except.noConfusion heq
    | ok left =>
      rw [hleft] at heq
      simp only [except_bind_ok] at heq
      cases hright : payload.valueInt "right" 0 with
      | error re =>
        rw [hright] at heq
        exact Except.noConfusion heq
      | ok right =>
        rw [hright] at heq
        simp only [except_bind_ok] at heq
        rcases hsendc : sendManualDrive rm (stringEntries entries) left right with
          ⟨okFlag, errMsg, sent⟩
        rw [hsendc] at heq
        cases okFlag with
        | false =>
          injection heq with hpair
          obtain ⟨_, h2⟩ := Prod.mk.inj hpair
          subst h2
          refine ⟨errorEnvelope request_id "relay_error" (errMsg.getD "") ts, ?_, rfl⟩
          rw [uiTo_append, uiTo_relayMap, uiTo_cons_self]
          rfl
        | true =>
          injection heq with hpair
          obtain ⟨_, h2⟩ := Prod.mk.inj hpair
          subst h2
          refine ⟨ackEnvelope request_id none ts, ?_, rfl⟩
          rw [uiTo_append, uiTo_relayMap, uiTo_cons_self]
          rfl

theorem setGroup_single_reply {gw : GatewayState} {payload : Json}
    {request_id : String} {sid : SessionId} {ts : Int} {st' : GatewayState} {sends : List Send}
    (heq : handleSetGroup gw payload request_id sid ts = .ok (st', sends)) :
    ∃ last, uiTo sid sends = [last] ∧ isAckErrEnv last = true := by
  unfold handleSetGroup at heq
  cases hgid : payload.valueStr "group_id" "" with
  | error ge =>
    rw [hgid] at heq
    exact Except.noConfusion heq
  | ok gid =>
    rw [hgid] at heq
    simp only [except_bind_ok] at heq
    split at heq
    · injection heq with hpair
      obtain ⟨_, h2⟩ := Prod.mk.inj hpair
      subst h2
      refine ⟨errorEnvelope request_id "invalid_payload" "group_id is required" ts, ?_, rfl⟩
      rw [uiTo_cons_self]
      rfl
    · split at heq
      case h_1 =>
        injection heq with hpair
        obtain ⟨_, h2⟩ := Prod.mk.inj hpair
        subst h2
        refine ⟨ackEnvelope request_id none ts, ?_, rfl⟩
        rw [uiTo_cons_self]
        rfl
      case h_2 =>
        injection heq with hpair
        obtain ⟨_, h2⟩ := Prod.mk.inj hpair
        subst h2
        refine ⟨errorEnvelope request_id "invalid_payload" "members must be array" ts, ?_, rfl⟩
        rw [uiTo_cons_self]
        rfl

theorem requestSnapshot_no_events {gw : GatewayState} {payload : Json}
    {request_id : String} {sid : SessionId} {ts : Int} {st' : GatewayState} {sends : List Send}
    (heq : handleRequestSnapshot gw payload request_id sid ts = .ok (st', sends)) :
    ∀ e ∈ uiTo sid sends, isEventEnv e = false := by
  unfold handleRequestSnapshot at heq
  cases hih : payload.valueBool "include_history" false with
  | error ie =>
    rw [hih] at heq
    exact Except.noConfusion heq
  | ok ih =>
    rw [hih] at heq
    simp only [except_bind_ok] at heq
    injection heq with hpair
    obtain ⟨_, h2⟩ := Prod.mk.inj hpair
    subst h2
    intro e he
    rw [uiTo_cons_self, uiTo_cons_self, uiTo_nil] at he
    simp only [List.mem_cons, List.not_mem_nil, or_false] at he
    rcases he with rfl | rfl
    · rfl
    · rfl

theorem subscribe_no_events {gw : GatewayState} {payload : Json}
    {request_id : String} {sid : SessionId} {ts : Int} {st' : GatewayState} {sends : List Send}
    (heq : handleSubscribe gw payload request_id sid ts = .ok (st', sends)) :
    ∀ e ∈ uiTo sid sends, isEventEnv e = false := by
  unfold handleSubscribe at heq
  cases hih : payload.valueBool "include_history" false with
  | error ie =>
    rw [hih] at heq
    exact Except.noConfusion heq
  | ok ih =>
    rw [hih] at heq
    simp only [except_bind_ok] at heq
    injection heq with hpair
    have hsnd : (subscribeResult gw payload request_id sid ts ih).2 = sends :=
      congrArg Prod.snd hpair
    intro e he
    rw [← hsnd] at he
    have hmemty : envType e ∈
        (["ack", "field_info"] ++ (if ih then ["snapshot"] else [])) := by
      rw [← subscribeResult_uiTo_types gw payload request_id sid ts ih]
      exact List.mem_map_of_mem envType he
    unfold isEventEnv
    cases ih with
    | false =>
      have : envType e = "ack" ∨ envType e = "field_info" := by simpa using hmemty
      rcases this with hty | hty <;> rw [hty] <;> rfl
    | true =>
      have : envType e = "ack" ∨ envType e = "field_info" ∨ envType e = "snapshot" := by
        simpa using hmemty
      rcases this with hty | hty | hty <;> rw [hty] <;> rfl

/-- C1 counterexample: on a gateway with a default-subscribed session 1 (and
an A02-filtered session 2) and a connected relay for A01, the set_led command
for A01 enqueues the cube_update event to the issuing session before its
ack: the first envelope session 1 receives is the event, refuting "the
ack … is enqueued … before any event envelope caused by that command". -/
theorem C1_counterexample_set_led_order :
    ackPrecedesEvents (uiTo 1 (runHandler gwTwoSessions
      (handleSetLed gwTwoSessions rmA01
        (.obj [("targets", .arr [.str "A01"]), ("color", .obj [("r", .num 255)])])
        "q1" 1 1000)).2) = false := by
  rfl

/-- C1 amended: within one session, error envelopes still precede any
cube_update/fleet_state event of the same command (error paths cause none),
but for successful set_led and set_goal the ack is enqueued after, not
before, the events the command causes: the per-session reply sequence of
those handlers is events followed by the ack/error last, while
manual_drive and set_group reply with a single ack/error and
request_snapshot and subscribe cause no cube_update/fleet_state event at
all. -/
theorem C1_ack_ordering (gw : GatewayState) (rm : RelayManagerState) (payload : Json)
    (request_id : String) (sid : SessionId) (ts : Int) :
    (∀ st' sends, handleSetLed gw rm payload request_id sid ts = .ok (st', sends) →
      ∃ evs last, uiTo sid sends = evs ++ [last] ∧ isAckErrEnv last = true
        ∧ ∀ e ∈ evs, isEventEnv e = true)
    ∧ (∀ st' sends, handleSetGoal gw payload request_id sid ts = .ok (st', sends) →
      ∃ evs last, uiTo sid sends = evs ++ [last] ∧ isAckErrEnv last = true
        ∧ ∀ e ∈ evs, isEventEnv e = true)
    ∧ (∀ st' sends, handleManualDrive gw rm payload request_id sid ts = .ok (st', sends) →
      ∃ last, uiTo sid sends = [last] ∧ isAckErrEnv last = true)
    ∧ (∀ st' sends, handleSetGroup gw payload request_id sid ts = .ok (st', sends) →
      ∃ last, uiTo sid sends = [last] ∧ isAckErrEnv last = true)
    ∧ (∀ st' sends, handleRequestSnapshot gw payload request_id sid ts = .ok (st', sends) →
      ∀ e ∈ uiTo sid sends, isEventEnv e = false)
    ∧ (∀ st' sends, handleSubscribe gw payload request_id sid ts = .ok (st', sends) →
      ∀ e ∈ uiTo sid sends, isEventEnv e = false) := by
  refine ⟨?_, ?_, ?_, ?_, ?_, ?_⟩
  · intro st' sends heq
    exact setLed_events_then_ack heq
  · intro st' sends heq
    exact setGoal_events_then_ack heq
  · intro st' sends heq
    exact manualDrive_single_reply heq
  · intro st' sends heq
    exact setGroup_single_reply heq
  · intro st' sends heq
    exact requestSnapshot_no_events heq
  · intro st' sends heq
    exact subscribe_no_events heq

/-- Witness for C1 amended: the successful set_led of the counterexample
scenario indeed replies with events followed by the ack. -/
theorem C1_ack_ordering_witness :
    ∃ evs last, uiTo 1 (runHandler gwTwoSessions
        (handleSetLed gwTwoSessions rmA01
          (.obj [("targets", .arr [.str "A01"]), ("color", .obj [("r", .num 255)])])
          "q1" 1 1000)).2 = evs ++ [last]
      ∧ isAckErrEnv last = true ∧ ∀ e ∈ evs, isEventEnv e = true := by
  exact (C1_ack_ordering gwTwoSessions rmA01
    (.obj [("targets", .arr [.str "A01"]), ("color", .obj [("r", .num 255)])])
    "q1" 1 1000).1
    (runHandler gwTwoSessions
      (handleSetLed gwTwoSessions rmA01
        (.obj [("targets", .arr [.str "A01"]), ("color", .obj [("r", .num 255)])])
        "q1" 1 1000)).1
    (runHandler gwTwoSessions
      (handleSetLed gwTwoSessions rmA01
        (.obj [("targets", .arr [.str "A01"]), ("color", .obj [("r", .num 255)])])
        "q1" 1 1000)).2
    rfl

/-! ## Claim C7 -/

theorem except_ok_bind {α β ε : Type} (a : α) (f : α → Except ε β) :
    (Except.ok a).bind f = f a := rfl

theorem parseCubeEntry_ok {j : Json} {s : String} (h : parseCubeEntry j = .ok s) :
    j = .str s := by
  cases j with
  | str s' =>
    unfold parseCubeEntry at h
    injection h with h1
    rw [h1]
  | null => exact Except.noConfusion h
  | b v => exact Except.noConfusion h
  | num n => exact Except.noConfusion h
  | arr xs => exact Except.noConfusion h
  | obj fs => exact Except.noConfusion h

theorem loadCubes_spec (items : List Json) :
    ∀ (seen cs seen' : List String), loadCubes seen items = .ok (cs, seen') →
      (∀ c ∈ cs, c.length = 3)
      ∧ (∀ c ∈ cs, c ∉ seen)
      ∧ cs.Nodup
      ∧ (∀ x, x ∈ seen' ↔ x ∈ cs ∨ x ∈ seen)
      ∧ items = cs.map Json.str := by
  induction items with
  | nil =>
    intro seen cs seen' h
    injection h with hp
    obtain ⟨h1, h2⟩ := Prod.mk.inj hp
    subst h1
    subst h2
    refine ⟨?_, ?_, List.nodup_nil, ?_, rfl⟩
    · intro c hc
      cases hc
    · intro c hc
      cases hc
    · intro x
      constructor
      · exact fun hx => Or.inr hx
      · rintro (hx | hx)
        · cases hx
        · exact hx
  | cons j rest ih =>
    intro seen cs seen' h
    unfold loadCubes at h
    cases hj : parseCubeEntry j with
    | error e =>
      rw [hj] at h
      exact Except.noConfusion h
    | ok cube_id =>
      rw [hj] at h
      simp only [except_ok_bind] at h
      split at h
      · exact Except.noConfusion h
      · split at h
        · exact Except.noConfusion h
        · rename_i hlen hdup
          rcases hrec : loadCubes (setInsert cube_id seen) rest with _ | ⟨cs2, seen2⟩
          · rw [hrec] at h
            exact Except.noConfusion h
          · rw [hrec] at h
            simp only [except_ok_bind] at h
            injection h with hp
            obtain ⟨h1, h2⟩ := Prod.mk.inj hp
            subst h1
            subst h2
            obtain ⟨ihlen, ihseen, ihnd, ihmem, ihitems⟩ :=
              ih (setInsert cube_id seen) cs2 seen2 hrec
            have hlen3 : cube_id.length = 3 := by
              by_contra hc
              exact hlen hc
            refine ⟨?_, ?_, ?_, ?_, ?_⟩
            · intro c hc
              rcases List.mem_cons.mp hc with rfl | hmem
              · exact hlen3
              · exact ihlen c hmem
            · intro c hc
              rcases List.mem_cons.mp hc with rfl | hmem
              · exact hdup
              · intro hseen
                exact ihseen c hmem (mem_setInsert.mpr (Or.inl hseen))
            · rw [List.nodup_cons]
              refine ⟨?_, ihnd⟩
              intro hmem
              exact ihseen cube_id hmem (mem_setInsert.mpr (Or.inr rfl))
            · intro x
              rw [ihmem x, mem_setInsert, List.mem_cons]
              tauto
            · rw [List.map_cons, ← ihitems, parseCubeEntry_ok hj]

/-- How a loaded RelayConfig reflects its JSON entry: id and uri as read by
`value()`, and `cubes` exactly the string entries of the entry's array. -/
def relayMatches (rj : Json) (r : RelayConfig) : Prop :=
  rj.valueStr "id" "" = .ok r.id ∧ rj.valueStr "uri" "" = .ok r.uri
  ∧ rj.find "cubes" = some (.arr (r.cubes.map Json.str))

theorem loadRelayList_spec (rjs : List Json) :
    ∀ (relaySeen cubeSeen : List String) (relays : List RelayConfig)
      (relaySeen' cubeSeen' : List String),
      loadRelayList relaySeen cubeSeen rjs = .ok (relays, relaySeen', cubeSeen') →
      (∀ r ∈ relays, r.id ≠ "" ∧ r.uri ≠ "" ∧ r.cubes ≠ [] ∧ ∀ c ∈ r.cubes, c.length = 3)
      ∧ (∀ r ∈ relays, r.id ∉ relaySeen)
      ∧ (relays.map RelayConfig.id).Nodup
      ∧ (∀ c ∈ relays.flatMap RelayConfig.cubes, c ∉ cubeSeen)
      ∧ (relays.flatMap RelayConfig.cubes).Nodup
      ∧ (∀ x, x ∈ cubeSeen' ↔ x ∈ relays.flatMap RelayConfig.cubes ∨ x ∈ cubeSeen)
      ∧ List.Forall₂ relayMatches rjs relays := by
  induction rjs with
  | nil =>
    intro relaySeen cubeSeen relays relaySeen' cubeSeen' h
    injection h with hp
    obtain ⟨h1, h23⟩ := Prod.mk.inj hp
    obtain ⟨h2, h3⟩ := Prod.mk.inj h23
    subst h1
    subst h2
    subst h3
    refine ⟨fun r hr => absurd hr (List.not_mem_nil r),
      fun r hr => absurd hr (List.not_mem_nil r), List.nodup_nil,
      fun c hc => absurd hc (List.not_mem_nil c), List.nodup_nil, ?_, List.Forall₂.nil⟩
    intro x
    constructor
    · exact fun hx => Or.inr hx
    · rintro (hx | hx)
      · cases hx
      · exact hx
  | cons rj rest ih =>
    intro relaySeen cubeSeen relays relaySeen' cubeSeen' h
    unfold loadRelayList at h
    cases hid : rj.valueStr "id" "" with
    | error e =>
      rw [hid] at h
      exact Except.noConfusion h
    | ok id =>
      rw [hid] at h
      simp only [except_ok_bind] at h
      split at h
      · exact Except.noConfusion h
      · rename_i hidne
        cases huri : rj.valueStr "uri" "" with
        | error e =>
          rw [huri] at h
          exact Except.noConfusion h
        | ok uri =>
          rw [huri] at h
          simp only [except_ok_bind] at h
          split at h
          · exact Except.noConfusion h
          · rename_i hurine
            rcases hfc : rj.find "cubes" with _ | cj
            · rw [hfc] at h
              exact Except.noConfusion h
            · rw [hfc] at h
              cases cj with
              | arr cubeItems =>
                have h' : (if cubeItems.isEmpty = true then
                    (cfgErr ("relay " ++ id ++ " must define at least one cube") :
                      Except String (List RelayConfig × List String × List String))
                  else (loadCubes cubeSeen cubeItems).bind fun cres =>
                    if id ∈ relaySeen then cfgErr ("duplicate relay id " ++ id)
                    else (loadRelayList (setInsert id relaySeen) cres.2 rest).bind fun rres =>
                      Except.ok ({ id := id, uri := uri, cubes := cres.1 } :: rres.1,
                        rres.2.1, rres.2.2)) = Except.ok (relays, relaySeen', cubeSeen') := h
                split at h'
                · exact Except.noConfusion h'
                · rename_i hcne
                  rcases hlc : loadCubes cubeSeen cubeItems with _ | ⟨cubes2, cubeSeenMid⟩
                  · rw [hlc] at h'
                    exact Except.noConfusion h'
                  · rw [hlc] at h'
                    simp only [except_ok_bind] at h'
                    split at h'
                    · exact Except.noConfusion h'
                    · rename_i hdup
                      rcases hrec : loadRelayList (setInsert id relaySeen) cubeSeenMid rest
                        with _ | ⟨relays2, rs2, cs2⟩
                      · rw [hrec] at h'
                        exact Except.noConfusion h'
                      · rw [hrec] at h'
                        simp only [except_ok_bind] at h'
                        injection h' with hp
                        obtain ⟨h1, h23⟩ := Prod.mk.inj hp
                        obtain ⟨h2, h3⟩ := Prod.mk.inj h23
                        subst h1
                        subst h2
                        subst h3
                        obtain ⟨lc1, lc2, lc3, lc4, lc5⟩ :=
                          loadCubes_spec cubeItems cubeSeen cubes2 cubeSeenMid hlc
                        obtain ⟨ih1, ih2, ih3, ih4, ih5, ih6, ih7⟩ :=
                          ih (setInsert id relaySeen) cubeSeenMid relays2 rs2 cs2 hrec
                        have hcubes2ne : cubes2 ≠ [] := by
                          intro hnil
                          rw [hnil] at lc5
                          rw [lc5] at hcne
                          exact hcne rfl
                        refine ⟨?_, ?_, ?_, ?_, ?_, ?_, ?_⟩
                        · intro r hr
                          rcases List.mem_cons.mp hr with rfl | hmem
                          · exact ⟨hidne, hurine, hcubes2ne, lc1⟩
                          · exact ih1 r hmem
                        · intro r hr
                          rcases List.mem_cons.mp hr with rfl | hmem
                          · exact hdup
                          · intro hseen
                            exact ih2 r hmem (mem_setInsert.mpr (Or.inl hseen))
                        · rw [List.map_cons, List.nodup_cons]
                          refine ⟨?_, ih3⟩
                          intro hmem
                          rw [List.mem_map] at hmem
                          obtain ⟨r, hr, hrid⟩ := hmem
                          exact ih2 r hr (hrid ▸ mem_setInsert.mpr (Or.inr rfl))
                        · intro c hc
                          rw [List.flatMap_cons, List.mem_append] at hc
                          rcases hc with hc1 | hc2
                          · exact lc2 c hc1
                          · intro hseen
                            exact ih4 c hc2 ((lc4 c).mpr (Or.inr hseen))
                        · rw [List.flatMap_cons]
                          refine List.Nodup.append lc3 ih5 ?_
                          intro c hc1 hc2
                          exact ih4 c hc2 ((lc4 c).mpr (Or.inl hc1))
                        · intro x
                          rw [ih6 x, List.flatMap_cons, List.mem_append, lc4 x]
                          tauto
                        · refine List.Forall₂.cons ⟨hid, huri, ?_⟩ ih7
                          rw [hfc, ← lc5]
              | null => exact Except.noConfusion h
              | b v => exact Except.noConfusion h
              | num n => exact Except.noConfusion h
              | str s => exact Except.noConfusion h
              | obj fs => exact Except.noConfusion h

/-- C7: whenever load_config returns a configuration instead of raising an
error, the validated conditions all hold of it — ui.port > 0, at least one
relay, every relay with a non-empty cube list of 3-character ids, no cube id
on two relays, no duplicate relay ids, and a properly ordered field box —
and the returned relays reflect exactly the document's entries (ids, uris
and cube lists as read from the JSON). -/
theorem C7_load_config_validates (doc : Json) (cfg : ControlServerConfig)
    (h : loadConfig doc = .ok cfg) :
    0 < cfg.ui.port
    ∧ cfg.relays ≠ []
    ∧ (∀ r ∈ cfg.relays, r.id ≠ "" ∧ r.cubes ≠ [] ∧ ∀ c ∈ r.cubes, c.length = 3)
    ∧ (cfg.relays.map RelayConfig.id).Nodup
    ∧ (cfg.relays.flatMap RelayConfig.cubes).Nodup
    ∧ cfg.field.top_left.x < cfg.field.bottom_right.x
    ∧ cfg.field.top_left.y < cfg.field.bottom_right.y
    ∧ ∃ relayItems, doc.find "relays" = some (.arr relayItems)
        ∧ List.Forall₂ relayMatches relayItems cfg.relays := by
  unfold loadConfig at h
  split at h
  · exact Except.noConfusion h
  · rename_i ui hui
    cases hhost : ui.valueStr "host" "0.0.0.0" with
    | error e =>
      rw [hhost] at h
      exact Except.noConfusion h
    | ok host =>
      rw [hhost] at h
      simp only [except_ok_bind] at h
      split at h
      · exact Except.noConfusion h
      · cases hport : ui.atInt "port" with
        | error e =>
          rw [hport] at h
          exact Except.noConfusion h
        | ok portRaw =>
          rw [hport] at h
          simp only [except_ok_bind] at h
          split at h
          · exact Except.noConfusion h
          · rename_i hport0
            split at h
            · exact Except.noConfusion h
            · split at h
              case h_2 => exact Except.noConfusion h
              case h_1 =>
                rename_i relayItems hrel
                split at h
                · exact Except.noConfusion h
                · rename_i hne
                  rcases hload : loadRelayList [] [] relayItems
                    with _ | ⟨relays2, rs2, cs2⟩
                  · rw [hload] at h
                    exact Except.noConfusion h
                  · rw [hload] at h
                    simp only [except_ok_bind] at h
                    cases hfield : loadField doc with
                    | error e =>
                      rw [hfield] at h
                      exact Except.noConfusion h
                    | ok field =>
                      rw [hfield] at h
                      simp only [except_ok_bind] at h
                      split at h
                      · exact Except.noConfusion h
                      · rename_i hfieldok
                        cases hrms : reconnectMs doc with
                        | error e =>
                          rw [hrms] at h
                          exact Except.noConfusion h
                        | ok rms =>
                          rw [hrms] at h
                          simp only [except_ok_bind] at h
                          injection h with hp
                          subst hp
                          obtain ⟨sp1, _, sp3, sp4, sp5, _, sp7⟩ :=
                            loadRelayList_spec relayItems [] [] relays2 rs2 cs2 hload
                          rw [not_or] at hfieldok
                          refine ⟨Nat.pos_of_ne_zero hport0, ?_, ?_, sp3, sp5,
                            lt_of_not_le hfieldok.1, lt_of_not_le hfieldok.2,
                            relayItems, hrel, sp7⟩
                          · intro hnil
                            have hnil' : relays2 = [] := hnil
                            rw [hnil'] at sp7
                            have hlen := List.Forall₂.length_eq sp7
                            rw [List.length_nil] at hlen
                            rw [List.length_eq_zero] at hlen
                            rw [hlen] at hne
                            exact hne rfl
                          · intro r hr
                            obtain ⟨hid, _, hcubes, hlens⟩ := sp1 r hr
                            exact ⟨hid, hcubes, hlens⟩

/-- A well-formed configuration document. -/
def docOk : Json :=
  .obj [("ui", .obj [("host", .str "0.0.0.0"), ("port", .num 8765)]),
        ("relays", .arr [.obj [("id", .str "r1"), ("uri", .str "ws://localhost:9000"),
          ("cubes", .arr [.str "A01", .str "A02"])]]),
        ("field", .obj [("top_left", .obj [("x", .num 45), ("y", .num 45)]),
          ("bottom_right", .obj [("x", .num 455), ("y", .num 455)])]),
        ("relay_reconnect_ms", .num 2000)]

/-- The configuration load_config produces for `docOk`. -/
def cfgOk : ControlServerConfig :=
  { ui := { host := "0.0.0.0", port := 8765 },
    relays := [{ id := "r1", uri := "ws://localhost:9000", cubes := ["A01", "A02"] }],
    field := { top_left := { x := 45, y := 45 }, bottom_right := { x := 455, y := 455 } },
    relay_reconnect_ms := 2000 }

/-- Witness for C7 at `docOk`. -/
theorem C7_load_config_validates_witness :
    0 < cfgOk.ui.port
    ∧ cfgOk.relays ≠ []
    ∧ (∀ r ∈ cfgOk.relays, r.id ≠ "" ∧ r.cubes ≠ [] ∧ ∀ c ∈ r.cubes, c.length = 3)
    ∧ (cfgOk.relays.map RelayConfig.id).Nodup
    ∧ (cfgOk.relays.flatMap RelayConfig.cubes).Nodup
    ∧ cfgOk.field.top_left.x < cfgOk.field.bottom_right.x
    ∧ cfgOk.field.top_left.y < cfgOk.field.bottom_right.y
    ∧ ∃ relayItems, docOk.find "relays" = some (.arr relayItems)
        ∧ List.Forall₂ relayMatches relayItems cfgOk.relays :=
  C7_load_config_validates docOk cfgOk rfl

end ToioControl
